import Mathlib

/-!
# Verification of the insurance-quote-tool comparison core

Shallow embedding of the layout-compiler core of the `insurance-quote-tool`
repository (`app/extraction/models.py`, `app/extraction/validator.py`,
`app/sheets/sheets_client.py`, `app/pdf_gen/generator.py`) together with
theorems settling the specification claims about it.

Python `float` values are modelled as rationals (`ℚ`); all values appearing
in the claims are exactly representable as IEEE-754 doubles, and every
arithmetic operation the embedded code performs on them (comparison,
division by powers of ten followed by `int` truncation, decimal string
formatting of such inputs) agrees with the rational computation, so the
rational model is faithful on the inputs at issue.  `Optional[...]` fields
become `Option`; functions that can raise return `Except`.
-/

namespace QuoteTool

/-- A grid cell value: the Python code puts either strings or raw numbers
into grid cells (`SheetsClient._format_cell_value` returns raw numbers for
numeric values and strings for text/missing). -/
inductive Cell where
  | str (s : String)
  | num (q : ℚ)
deriving DecidableEq, Repr

/-- A raw field value before cell formatting: Python `None`, a float, or a
string (e.g. a loss-of-use value expressed as `"ALS"`). -/
inductive Val where
  | none
  | num (q : ℚ)
  | str (s : String)
deriving DecidableEq, Repr

/-- Python truthiness of an `Optional[float]` value: `None` and `0.0` are
falsy, every other float is truthy. -/
def truthyQ : Option ℚ → Bool
  | Option.none => false
  | Option.some v => v != 0

/-- Python truthiness of an `Optional[str]` value: `None` and `""` are
falsy. -/
def truthyS : Option String → Bool
  | Option.none => false
  | Option.some s => s != ""

/-- Python `int(x)` applied to a float: truncation toward zero. -/
def truncQ (q : ℚ) : ℤ := if 0 ≤ q then ⌊q⌋ else ⌈q⌉

/-- `models.CoverageLimits`: one optional numeric slot per known coverage
type (all fields default to `None`). -/
structure CoverageLimits where
  dwelling : Option ℚ := Option.none
  other_structures : Option ℚ := Option.none
  personal_property : Option ℚ := Option.none
  loss_of_use : Option ℚ := Option.none
  personal_liability : Option ℚ := Option.none
  medical_payments : Option ℚ := Option.none
  bi_per_person : Option ℚ := Option.none
  bi_per_accident : Option ℚ := Option.none
  pd_per_accident : Option ℚ := Option.none
  um_uim : Option ℚ := Option.none
  comprehensive : Option ℚ := Option.none
  collision : Option ℚ := Option.none
  csl : Option ℚ := Option.none
  umbrella_limit : Option ℚ := Option.none
deriving DecidableEq, Repr

/-- `models.InsuranceQuote`: one policy offer. -/
structure InsuranceQuote where
  carrier_name : String
  policy_type : String
  effective_date : Option String := Option.none
  expiration_date : Option String := Option.none
  annual_premium : ℚ
  monthly_premium : Option ℚ := Option.none
  deductible : ℚ
  wind_hail_deductible : Option ℚ := Option.none
  coverage_limits : CoverageLimits := {}
  endorsements : List String := []
  exclusions : List String := []
  discounts_applied : List String := []
  confidence : String
  notes : Option String := Option.none
  raw_source : Option String := Option.none
deriving DecidableEq, Repr

/-- `models.CarrierBundle`: one carrier's offer set, up to four optional
quote slots. -/
structure CarrierBundle where
  carrier_name : String
  home : Option InsuranceQuote := Option.none
  home_2 : Option InsuranceQuote := Option.none
  auto : Option InsuranceQuote := Option.none
  umbrella : Option InsuranceQuote := Option.none
deriving DecidableEq, Repr

/-- `models.CarrierBundle.total_premium`: sequentially adds the annual
premium of each populated slot (`if self.home: total += ...`, etc.).
Note: it does not consult `sections_included`. -/
def CarrierBundle.total_premium (b : CarrierBundle) : ℚ :=
  let total : ℚ := 0
  let total := match b.home with
    | Option.some q => total + q.annual_premium
    | Option.none => total
  let total := match b.home_2 with
    | Option.some q => total + q.annual_premium
    | Option.none => total
  let total := match b.auto with
    | Option.some q => total + q.annual_premium
    | Option.none => total
  let total := match b.umbrella with
    | Option.some q => total + q.annual_premium
    | Option.none => total
  total

/-- `models.CurrentPolicy`: the manually entered baseline, with per-category
scalar/string fields. -/
structure CurrentPolicy where
  carrier_name : String
  home_premium : Option ℚ := Option.none
  home_dwelling : Option ℚ := Option.none
  home_other_structures : Option ℚ := Option.none
  home_liability : Option ℚ := Option.none
  home_personal_property : Option ℚ := Option.none
  home_loss_of_use : Option ℚ := Option.none
  home_deductible : Option ℚ := Option.none
  home_2_premium : Option ℚ := Option.none
  home_2_dwelling : Option ℚ := Option.none
  home_2_other_structures : Option ℚ := Option.none
  home_2_liability : Option ℚ := Option.none
  home_2_personal_property : Option ℚ := Option.none
  home_2_loss_of_use : Option ℚ := Option.none
  home_2_deductible : Option ℚ := Option.none
  auto_premium : Option ℚ := Option.none
  auto_limits : Option String := Option.none
  auto_um_uim : Option String := Option.none
  auto_comp_deductible : Option String := Option.none
  auto_collision_deductible : Option ℚ := Option.none
  umbrella_premium : Option ℚ := Option.none
  umbrella_limits : Option String := Option.none
  umbrella_deductible : Option ℚ := Option.none
deriving DecidableEq, Repr

/-- `models.CurrentPolicy.total_premium`: adds each category premium that is
truthy (`if self.home_premium: total += ...`); a `None` or `0.0` premium
contributes nothing.  Also ignores `sections_included`. -/
def CurrentPolicy.total_premium (cp : CurrentPolicy) : ℚ :=
  let total : ℚ := 0
  let total := if truthyQ cp.home_premium then total + cp.home_premium.getD 0 else total
  let total := if truthyQ cp.home_2_premium then total + cp.home_2_premium.getD 0 else total
  let total := if truthyQ cp.auto_premium then total + cp.auto_premium.getD 0 else total
  let total := if truthyQ cp.umbrella_premium then total + cp.umbrella_premium.getD 0 else total
  total

/-- `models.ComparisonSession`: the complete comparison input record. -/
structure ComparisonSession where
  client_name : String
  date : String
  current_policy : Option CurrentPolicy := Option.none
  carriers : List CarrierBundle := []
  sections_included : List String := []
  agent_notes : Option String := Option.none
deriving DecidableEq, Repr

/-- `sheets_client._has_multi_dwelling` (and the identical
`generator._session_has_multi_dwelling`): true iff the current policy has a
truthy secondary-dwelling premium or any carrier has a populated `home_2`
slot. -/
def has_multi_dwelling (session : ComparisonSession) : Bool :=
  (match session.current_policy with
   | Option.some cp => truthyQ cp.home_2_premium
   | Option.none => false)
  || session.carriers.any (fun c => c.home_2.isSome)

/-- `SheetsClient._get_num_data_columns`:
`len(session.carriers[:6]) + (1 if session.current_policy else 0)`. -/
def get_num_data_columns (session : ComparisonSession) : ℕ :=
  (session.carriers.take 6).length + (if session.current_policy.isSome then 1 else 0)

/-- `SheetsClient._format_cell_value`: `None` becomes the sentinel `"-"`,
strings pass through, numbers stay raw numbers. -/
def format_cell_value : Val → Cell
  | Val.none => Cell.str "-"
  | Val.str s => Cell.str s
  | Val.num q => Cell.num q

/-- Lift an optional number to a raw value. -/
def numVal : Option ℚ → Val
  | Option.none => Val.none
  | Option.some q => Val.num q

/-- Lift an optional string to a raw value. -/
def strVal : Option String → Val
  | Option.none => Val.none
  | Option.some s => Val.str s

/-- Auto liability limit formatter, embedded from the two byte-identical
implementations `SheetsClient._get_auto_limits` (sheets_client.py:228) and
`SciotoComparisonPDF._get_auto_limits` (generator.py:838).  The split-limit
branch fires when all three of `bi_per_person`, `bi_per_accident`,
`pd_per_accident` are truthy (non-`None` and nonzero); the CSL branch when
`csl` is truthy; otherwise the sentinel. -/
def get_auto_limits (quote : InsuranceQuote) : String :=
  let cl := quote.coverage_limits
  if truthyQ cl.bi_per_person && truthyQ cl.bi_per_accident && truthyQ cl.pd_per_accident then
    let bi_p := truncQ (cl.bi_per_person.getD 0 / 1000)
    let bi_a := truncQ (cl.bi_per_accident.getD 0 / 1000)
    let pd_a := truncQ (cl.pd_per_accident.getD 0 / 1000)
    s!"{bi_p}/{bi_a}/{pd_a}"
  else if truthyQ cl.csl then
    let c := cl.csl.getD 0
    if c ≥ 1000000 then
      let m := truncQ (c / 1000000)
      s!"{m}M CSL"
    else
      let k := truncQ (c / 1000)
      s!"{k}K CSL"
  else
    "-"

/-- `SheetsClient._get_umbrella_limits`: `"-"` when the limit is falsy
(`None` or `0`), an `"{n}M CSL"` string when at least one million, otherwise
the raw number (left for the spreadsheet template to format). -/
def SheetsClient.get_umbrella_limits (quote : InsuranceQuote) : Cell :=
  match quote.coverage_limits.umbrella_limit with
  | Option.none => Cell.str "-"
  | Option.some v =>
    if v = 0 then Cell.str "-"
    else if v ≥ 1000000 then
      let m := truncQ (v / 1000000)
      Cell.str s!"{m}M CSL"
    else Cell.num v

/-!
## Decimal rendering (`SciotoComparisonPDF._fmt_currency`)

Python renders `f"${v:,.0f}"` for `v >= 1000` and `f"${v:,.2f}"` otherwise.
`float.__format__` produces the correctly rounded decimal string of the
binary double, with ties resolved to an even last digit.  We model it over
`ℚ` with the same round-half-to-even rule; on every input the claims use the
double is either exactly representable (e.g. `1234.5`) or rounds to the same
decimal string (e.g. `123.4 → "123.40"`), so the model agrees with CPython.
-/

/-- Round to the nearest integer, ties to the even integer (the rounding
used by `float.__format__`). -/
def roundHalfEven (q : ℚ) : ℤ :=
  let f := ⌊q⌋
  let r := q - f
  if r < 1/2 then f
  else if 1/2 < r then f + 1
  else if f % 2 = 0 then f else f + 1

/-- The decimal digit character for `n % 10`. -/
def digitChar (n : ℕ) : Char := Char.ofNat (48 + n % 10)

/-- Decimal digits of a natural number, most significant first (fuel-based
so that it reduces structurally; the fuel bounds the number of digits). -/
def natDigitsAux : ℕ → ℕ → List Char
  | 0, _ => []
  | fuel + 1, n =>
    if n < 10 then [digitChar n]
    else natDigitsAux fuel (n / 10) ++ [digitChar (n % 10)]

/-- Decimal digits of a natural number, most significant first
(`natDigits 0 = ['0']`). -/
def natDigits (n : ℕ) : List Char := natDigitsAux (n + 1) n

/-- Insert `','` after every group of three characters, counting from the
end of the list (input and output both least significant first). -/
def commaRev : List Char → ℕ → List Char
  | [], _ => []
  | c :: cs, i =>
    (if i ≠ 0 ∧ i % 3 = 0 then [','] else []) ++ c :: commaRev cs (i + 1)

/-- Thousands-separated decimal rendering of a natural number, as produced
by the `,` flag of a Python format spec. -/
def commaDigits (n : ℕ) : List Char := (commaRev (natDigits n).reverse 0).reverse

/-- `f"{v:,.0f}"`: round half-to-even to an integer and render it with
thousands separators (sign first when negative). -/
def fmtComma0 (v : ℚ) : String :=
  let n := roundHalfEven v
  let sign := if n < 0 then "-" else ""
  sign ++ String.mk (commaDigits n.natAbs)

/-- `f"{v:,.2f}"`: round half-to-even at two decimal places and render with
thousands separators and exactly two digits after the point.  Python keeps
the sign of a negative value even when it rounds to zero. -/
def fmtComma2 (v : ℚ) : String :=
  let n := roundHalfEven (v * 100)
  let sign := if v < 0 then "-" else ""
  let ip := n.natAbs / 100
  let fp := n.natAbs % 100
  sign ++ String.mk (commaDigits ip) ++ "." ++ String.mk [digitChar (fp / 10), digitChar fp]

/-- `SciotoComparisonPDF._fmt_currency` on its numeric domain: `None` maps
to the sentinel `"-"`; a value `>= 1000` renders with no decimal places and
thousands separators; a smaller value renders with exactly two decimal
places. -/
def fmt_currency : Option ℚ → String
  | Option.none => "-"
  | Option.some v =>
    if v ≥ 1000 then "$" ++ fmtComma0 v
    else "$" ++ fmtComma2 v

/-!
## Row building helpers (`SheetsClient._build_*`)

Each helper returns a 7-cell row: the current-policy cell (or `"-"` when no
current policy), one cell per carrier (at most six), padded with `""` cells
to 7.
-/

/-- Pad a row with `""` cells until it has 7 entries
(`while len(row) < 7: row.append("")`). -/
def padTo7 (row : List Cell) : List Cell :=
  row ++ List.replicate (7 - row.length) (Cell.str "")

/-- `SheetsClient._build_premium_row`. -/
def build_premium_row (session : ComparisonSession)
    (current_getter : CurrentPolicy → Option ℚ)
    (carrier_getter : CarrierBundle → Option ℚ) : List Cell :=
  let row : List Cell :=
    match session.current_policy with
    | Option.some cp => [format_cell_value (numVal (current_getter cp))]
    | Option.none => [Cell.str "-"]
  let row := row ++ (session.carriers.take 6).map
    (fun carrier => format_cell_value (numVal (carrier_getter carrier)))
  padTo7 row

/-- `SheetsClient._build_total_row`: per-column bundle/baseline totals
(which, per `models.py`, sum every populated slot irrespective of
`sections_included`). -/
def build_total_row (session : ComparisonSession) : List Cell :=
  let row : List Cell :=
    match session.current_policy with
    | Option.some cp => [format_cell_value (numVal (Option.some cp.total_premium))]
    | Option.none => [Cell.str "-"]
  let row := row ++ (session.carriers.take 6).map
    (fun carrier => format_cell_value (numVal (Option.some carrier.total_premium)))
  padTo7 row

/-- `SheetsClient._build_coverage_row` (handles float, str, or None). -/
def build_coverage_row (session : ComparisonSession)
    (current_getter : CurrentPolicy → Val)
    (carrier_getter : CarrierBundle → Val) : List Cell :=
  let row : List Cell :=
    match session.current_policy with
    | Option.some cp => [format_cell_value (current_getter cp)]
    | Option.none => [Cell.str "-"]
  let row := row ++ (session.carriers.take 6).map
    (fun carrier => format_cell_value (carrier_getter carrier))
  padTo7 row

/-- `SheetsClient._build_home_section`: the six Dwelling-1 coverage rows. -/
def build_home_section (session : ComparisonSession) : List (List Cell) :=
  [build_coverage_row session (fun cp => numVal cp.home_dwelling)
      (fun cb => match cb.home with
        | Option.some q => numVal q.coverage_limits.dwelling
        | Option.none => Val.none),
   build_coverage_row session (fun cp => numVal cp.home_other_structures)
      (fun cb => match cb.home with
        | Option.some q => numVal q.coverage_limits.other_structures
        | Option.none => Val.none),
   build_coverage_row session (fun cp => numVal cp.home_liability)
      (fun cb => match cb.home with
        | Option.some q => numVal q.coverage_limits.personal_liability
        | Option.none => Val.none),
   build_coverage_row session (fun cp => numVal cp.home_personal_property)
      (fun cb => match cb.home with
        | Option.some q => numVal q.coverage_limits.personal_property
        | Option.none => Val.none),
   build_coverage_row session (fun cp => numVal cp.home_loss_of_use)
      (fun cb => match cb.home with
        | Option.some q => numVal q.coverage_limits.loss_of_use
        | Option.none => Val.none),
   build_coverage_row session (fun cp => numVal cp.home_deductible)
      (fun cb => match cb.home with
        | Option.some q => Val.num q.deductible
        | Option.none => Val.none)]

/-- `SheetsClient._build_home_2_section`: the six Dwelling-2 coverage rows. -/
def build_home_2_section (session : ComparisonSession) : List (List Cell) :=
  [build_coverage_row session (fun cp => numVal cp.home_2_dwelling)
      (fun cb => match cb.home_2 with
        | Option.some q => numVal q.coverage_limits.dwelling
        | Option.none => Val.none),
   build_coverage_row session (fun cp => numVal cp.home_2_other_structures)
      (fun cb => match cb.home_2 with
        | Option.some q => numVal q.coverage_limits.other_structures
        | Option.none => Val.none),
   build_coverage_row session (fun cp => numVal cp.home_2_liability)
      (fun cb => match cb.home_2 with
        | Option.some q => numVal q.coverage_limits.personal_liability
        | Option.none => Val.none),
   build_coverage_row session (fun cp => numVal cp.home_2_personal_property)
      (fun cb => match cb.home_2 with
        | Option.some q => numVal q.coverage_limits.personal_property
        | Option.none => Val.none),
   build_coverage_row session (fun cp => numVal cp.home_2_loss_of_use)
      (fun cb => match cb.home_2 with
        | Option.some q => numVal q.coverage_limits.loss_of_use
        | Option.none => Val.none),
   build_coverage_row session (fun cp => numVal cp.home_2_deductible)
      (fun cb => match cb.home_2 with
        | Option.some q => Val.num q.deductible
        | Option.none => Val.none)]

/-- `SheetsClient._build_auto_limits_row`: special formatting; the current
policy cell is `cp.auto_limits or "-"` (so `None` and `""` both render as
the sentinel). -/
def build_auto_limits_row (session : ComparisonSession) : List Cell :=
  let row : List Cell :=
    match session.current_policy with
    | Option.some cp =>
      [Cell.str (if truthyS cp.auto_limits then cp.auto_limits.getD "" else "-")]
    | Option.none => [Cell.str "-"]
  let row := row ++ (session.carriers.take 6).map
    (fun carrier => match carrier.auto with
      | Option.some q => Cell.str (get_auto_limits q)
      | Option.none => Cell.str "-")
  padTo7 row

/-- `SheetsClient._build_umbrella_limits_row`: the current policy cell is
`cp.umbrella_limits or "-"`. -/
def build_umbrella_limits_row (session : ComparisonSession) : List Cell :=
  let row : List Cell :=
    match session.current_policy with
    | Option.some cp =>
      [Cell.str (if truthyS cp.umbrella_limits then cp.umbrella_limits.getD "" else "-")]
    | Option.none => [Cell.str "-"]
  let row := row ++ (session.carriers.take 6).map
    (fun carrier => match carrier.umbrella with
      | Option.some q => SheetsClient.get_umbrella_limits q
      | Option.none => Cell.str "-")
  padTo7 row

/-- `SheetsClient._build_auto_section`: limits, UM/UIM, comprehensive
deductible, collision deductible. -/
def build_auto_section (session : ComparisonSession) : List (List Cell) :=
  [build_auto_limits_row session,
   build_coverage_row session (fun cp => strVal cp.auto_um_uim)
      (fun cb => match cb.auto with
        | Option.some q => numVal q.coverage_limits.um_uim
        | Option.none => Val.none),
   build_coverage_row session (fun cp => strVal cp.auto_comp_deductible)
      (fun cb => match cb.auto with
        | Option.some q => numVal q.coverage_limits.comprehensive
        | Option.none => Val.none),
   build_coverage_row session (fun cp => numVal cp.auto_collision_deductible)
      (fun cb => match cb.auto with
        | Option.some q => Val.num q.deductible
        | Option.none => Val.none)]

/-- `SheetsClient._build_umbrella_section`: limits and deductible. -/
def build_umbrella_section (session : ComparisonSession) : List (List Cell) :=
  [build_umbrella_limits_row session,
   build_coverage_row session (fun cp => numVal cp.umbrella_deductible)
      (fun cb => match cb.umbrella with
        | Option.some q => Val.num q.deductible
        | Option.none => Val.none)]

/-- The `dict.fromkeys` de-duplication used by
`SciotoComparisonPDF.add_endorsements_section`: walk the list left to right,
appending each element the first time it is seen. -/
def dedup_first (l : List String) : List String :=
  l.foldl (fun acc x => if x ∈ acc then acc else acc ++ [x]) []

/-- The four quote slots of a bundle in the order
`["home", "home_2", "auto", "umbrella"]` walked by the generator. -/
def bundle_slots (b : CarrierBundle) : List (Option InsuranceQuote) :=
  [b.home, b.home_2, b.auto, b.umbrella]

/-- `add_endorsements_section` endorsement aggregation for one bundle:
extend over the populated slots in slot order, then de-duplicate keeping
first occurrences. -/
def aggregate_endorsements (b : CarrierBundle) : List String :=
  dedup_first ((((bundle_slots b).filterMap id).map (fun q => q.endorsements)).flatten)

/-- `add_endorsements_section` discount aggregation for one bundle. -/
def aggregate_discounts (b : CarrierBundle) : List String :=
  dedup_first ((((bundle_slots b).filterMap id).map (fun q => q.discounts_applied)).flatten)

/-- `sheets_client.GridConfig`: dynamic layout config computed alongside
the grid rows. -/
structure GridConfig where
  total_rows : ℕ := 0
  header_rows : List ℕ := []
  sub_header_rows : List ℕ := []
  currency_rows : List ℕ := []
  total_row : ℕ := 0
  even_data_rows : List ℕ := []
  current_col_ranges : List String := []
  border_range : String := ""
  data_align_range : String := ""
  label_align_range : String := ""
deriving DecidableEq, Repr

/-- The nested `pad_row` helper of `_build_full_grid`: trim a 7-cell helper
row to `num_data_cols`, stripping the leading current-policy placeholder
when the session has no current policy (`helper_row[1:]`), then pad with
`""` and truncate (`(data + [""] * num_data_cols)[:num_data_cols]`).
`has_current` stands for `session.current_policy` being present. -/
def grid_pad_row (has_current : Bool) (num_data_cols : ℕ) (helper_row : List Cell) : List Cell :=
  let data := if has_current then helper_row else helper_row.tail
  (data ++ List.replicate num_data_cols (Cell.str "")).take num_data_cols

/-- The nested `label_row` helper of `_build_full_grid`: prepend the row
label to the trimmed helper row. -/
def grid_label_row (has_current : Bool) (num_data_cols : ℕ)
    (label : String) (helper_row : List Cell) : List Cell :=
  Cell.str label :: grid_pad_row has_current num_data_cols helper_row

/-- One detail-section loop of `_build_full_grid`
(`for i, label in enumerate(labels): ...`): when the section data was built
emit `label_row(label, data[i])`, otherwise the label followed by blank
cells. -/
def grid_detail_rows (has_current : Bool) (num_data_cols : ℕ)
    (labels : List String) (data : Option (List (List Cell))) : List (List Cell) :=
  labels.enum.map (fun p =>
    match data with
    | Option.some rows => grid_label_row has_current num_data_cols p.2 (rows.getD p.1 [])
    | Option.none => Cell.str p.2 :: List.replicate num_data_cols (Cell.str ""))

/-- `SheetsClient._build_full_grid`: the single-pass walk that emits the
grid rows and the `GridConfig` metadata together.  The Python `row_num`
counter and the `grid.append` calls are mirrored by shadowing `let`
bindings: every `row_num + 1` step is paired with exactly one appended row,
in source order.  The two `for` loops over detail labels become
`grid_detail_rows` over the same label lists, and the loop's
`currency_rows.append(row_num)` becomes the corresponding arithmetic
progression of row numbers. -/
def build_full_grid (session : ComparisonSession) (num_data_cols : ℕ) :
    List (List Cell) × GridConfig :=
  let total_cols := 1 + num_data_cols
  let is_multi_dw := has_multi_dwelling session
  let has_current := session.current_policy.isSome
  let label_row : String → List Cell → List Cell :=
    grid_label_row has_current num_data_cols
  let empty_row : List Cell := List.replicate total_cols (Cell.str "")
  let section_header : String → List Cell := fun label =>
    Cell.str label :: List.replicate num_data_cols (Cell.str "")
  let grid : List (List Cell) := []
  let row_num : ℕ := 0
  -- Row 1: Title (A1:A2 reserved for logo)
  let row_num := row_num + 1
  let grid := grid ++
    [Cell.str "" :: Cell.str ("Quote Comparison — " ++ session.client_name)
      :: List.replicate (num_data_cols - 1) (Cell.str "")]
  let header_rows : List ℕ := [row_num]
  -- Row 2: Date (B2, A2 is part of logo merge)
  let row_num := row_num + 1
  let grid := grid ++
    [Cell.str "" :: Cell.str session.date :: List.replicate (num_data_cols - 1) (Cell.str "")]
  -- Row 3: Carrier names header
  let row_num := row_num + 1
  let carrier_header : List Cell :=
    Cell.str "Premium Breakout"
      :: (match session.current_policy with
          | Option.some cp =>
            [Cell.str ("Current: " ++ (if cp.carrier_name != "" then cp.carrier_name else "Current"))]
          | Option.none => [])
      ++ (session.carriers.take 6).map (fun carrier => Cell.str carrier.carrier_name)
  let grid := grid ++ [(carrier_header ++ List.replicate total_cols (Cell.str "")).take total_cols]
  let header_rows := header_rows ++ [row_num]
  -- === Premium Section ===
  let premium_start := row_num + 1
  -- Auto Premium
  let row_num := row_num + 1
  let grid := grid ++ [label_row "Auto Premium" (build_premium_row session
    (fun cp => cp.auto_premium)
    (fun cb => cb.auto.map (fun q => q.annual_premium)))]
  let currency_rows : List ℕ := [row_num]
  -- Home Premium(s)
  let (grid, row_num, currency_rows) :=
    if is_multi_dw then
      let row_num := row_num + 1
      let grid := grid ++ [label_row "Home 1 Premium" (build_premium_row session
        (fun cp => cp.home_premium)
        (fun cb => cb.home.map (fun q => q.annual_premium)))]
      let currency_rows := currency_rows ++ [row_num]
      let row_num := row_num + 1
      let grid := grid ++ [label_row "Home 2 Premium" (build_premium_row session
        (fun cp => cp.home_2_premium)
        (fun cb => cb.home_2.map (fun q => q.annual_premium)))]
      let currency_rows := currency_rows ++ [row_num]
      (grid, row_num, currency_rows)
    else
      let row_num := row_num + 1
      let grid := grid ++ [label_row "Home Premium" (build_premium_row session
        (fun cp => cp.home_premium)
        (fun cb => cb.home.map (fun q => q.annual_premium)))]
      let currency_rows := currency_rows ++ [row_num]
      (grid, row_num, currency_rows)
  -- Umbrella Premium
  let row_num := row_num + 1
  let grid := grid ++ [label_row "Umbrella Premium" (build_premium_row session
    (fun cp => cp.umbrella_premium)
    (fun cb => cb.umbrella.map (fun q => q.annual_premium)))]
  let currency_rows := currency_rows ++ [row_num]
  -- Total
  let row_num := row_num + 1
  let grid := grid ++ [label_row "Total" (build_total_row session)]
  let currency_rows := currency_rows ++ [row_num]
  let total_row := row_num
  let data_blocks : List (ℕ × ℕ) := [(premium_start, row_num)]
  -- Blank separator
  let row_num := row_num + 1
  let grid := grid ++ [empty_row]
  -- === Home Coverage Section ===
  let row_num := row_num + 1
  let grid := grid ++ [section_header "Home Coverage"]
  let header_rows := header_rows ++ [row_num]
  let home_labels := ["Dwelling", "Other Structures", "Liability",
    "Personal Property", "Loss of Use", "Deductible"]
  let home_data : Option (List (List Cell)) :=
    if session.sections_included.contains "home"
    then Option.some (build_home_section session) else Option.none
  let detail_rows : List String → Option (List (List Cell)) → List (List Cell) :=
    grid_detail_rows has_current num_data_cols
  let (grid, row_num, currency_rows, sub_header_rows, data_blocks) :=
    if is_multi_dw then
      let home_2_data : Option (List (List Cell)) :=
        if session.sections_included.contains "home"
        then Option.some (build_home_2_section session) else Option.none
      -- Dwelling 1 sub-header
      let row_num := row_num + 1
      let grid := grid ++ [section_header "Dwelling 1"]
      let sub_header_rows : List ℕ := [row_num]
      -- Dwelling 1 data rows
      let dw1_start := row_num + 1
      let grid := grid ++ detail_rows home_labels home_data
      let currency_rows := currency_rows ++
        (List.range home_labels.length).map (fun i => row_num + 1 + i)
      let row_num := row_num + home_labels.length
      let data_blocks := data_blocks ++ [(dw1_start, row_num)]
      -- Dwelling 2 sub-header
      let row_num := row_num + 1
      let grid := grid ++ [section_header "Dwelling 2"]
      let sub_header_rows := sub_header_rows ++ [row_num]
      -- Dwelling 2 data rows
      let dw2_start := row_num + 1
      let grid := grid ++ detail_rows home_labels home_2_data
      let currency_rows := currency_rows ++
        (List.range home_labels.length).map (fun i => row_num + 1 + i)
      let row_num := row_num + home_labels.length
      let data_blocks := data_blocks ++ [(dw2_start, row_num)]
      (grid, row_num, currency_rows, sub_header_rows, data_blocks)
    else
      -- Single-dwelling: 6 data rows
      let home_start := row_num + 1
      let grid := grid ++ detail_rows home_labels home_data
      let currency_rows := currency_rows ++
        (List.range home_labels.length).map (fun i => row_num + 1 + i)
      let row_num := row_num + home_labels.length
      let data_blocks := data_blocks ++ [(home_start, row_num)]
      (grid, row_num, currency_rows, ([] : List ℕ), data_blocks)
  -- Blank separator
  let row_num := row_num + 1
  let grid := grid ++ [empty_row]
  -- === Auto Coverage Section ===
  let row_num := row_num + 1
  let grid := grid ++ [section_header "Auto Coverage"]
  let header_rows := header_rows ++ [row_num]
  let auto_labels := ["Limits", "UM/UIM", "Comprehensive", "Collision"]
  let auto_data : Option (List (List Cell)) :=
    if session.sections_included.contains "auto"
    then Option.some (build_auto_section session) else Option.none
  let auto_start := row_num + 1
  let grid := grid ++ detail_rows auto_labels auto_data
  let row_num := row_num + auto_labels.length
  let data_blocks := data_blocks ++ [(auto_start, row_num)]
  -- Blank separator
  let row_num := row_num + 1
  let grid := grid ++ [empty_row]
  -- === Umbrella Coverage Section ===
  let row_num := row_num + 1
  let grid := grid ++ [section_header "Umbrella Coverage"]
  let header_rows := header_rows ++ [row_num]
  let umbrella_labels := ["Limits", "Deductible"]
  let umbrella_data : Option (List (List Cell)) :=
    if session.sections_included.contains "umbrella"
    then Option.some (build_umbrella_section session) else Option.none
  let umbrella_start := row_num + 1
  let grid := grid ++ detail_rows umbrella_labels umbrella_data
  let row_num := row_num + umbrella_labels.length
  let data_blocks := data_blocks ++ [(umbrella_start, row_num)]
  -- Compute even_data_rows from data blocks
  let even_data_rows : List ℕ :=
    (data_blocks.map (fun blk =>
      ((List.range (blk.2 + 1 - blk.1)).filter (fun i => i % 2 = 0)).map
        (fun i => blk.1 + i))).flatten
  -- Compute current_col_ranges from data blocks
  let current_col_ranges : List String :=
    data_blocks.map (fun blk => "B" ++ toString blk.1 ++ ":B" ++ toString blk.2)
  -- Finalize config
  let last_col : String := String.mk [Char.ofNat (65 + num_data_cols)]
  (grid,
   { total_rows := row_num
     header_rows := header_rows
     sub_header_rows := sub_header_rows
     currency_rows := currency_rows
     total_row := total_row
     even_data_rows := even_data_rows
     current_col_ranges := current_col_ranges
     border_range := "A3:" ++ last_col ++ toString row_num
     data_align_range := "B4:" ++ last_col ++ toString row_num
     label_align_range := "A4:A" ++ toString row_num })

/-!
## PDF generator (`app/pdf_gen/generator.py`)

The drawing primitives (fonts, colours, cell geometry, page breaks) are
renderer details; what the comparison-table code emits is a stream of table
rows, modelled by `PdfRow`.  Each `self._add_*` call appends one row (or a
section divider) in source order.
-/

/-- One emitted row of the PDF comparison table. -/
inductive PdfRow where
  | headerRow (cells : List String)
  | divider (title : String)
  | subDivider (title : String)
  | dataRow (label : String) (values : List String)
  | totalRow (values : List String)
deriving DecidableEq, Repr

/-- `generator._session_has_multi_dwelling` (same logic as the sheets-side
`_has_multi_dwelling`, but taking the two components). -/
def session_has_multi_dwelling (current_policy : Option CurrentPolicy)
    (carriers : List CarrierBundle) : Bool :=
  (match current_policy with
   | Option.some cp => truthyQ cp.home_2_premium
   | Option.none => false)
  || carriers.any (fun c => c.home_2.isSome)

/-- `getattr(quote.coverage_limits, key, None)` for the string keys used by
the generator's row tables. -/
def coverage_limit_field (key : String) (cl : CoverageLimits) : Option ℚ :=
  if key == "dwelling" then cl.dwelling
  else if key == "other_structures" then cl.other_structures
  else if key == "personal_property" then cl.personal_property
  else if key == "loss_of_use" then cl.loss_of_use
  else if key == "personal_liability" then cl.personal_liability
  else if key == "medical_payments" then cl.medical_payments
  else if key == "um_uim" then cl.um_uim
  else if key == "comprehensive" then cl.comprehensive
  else if key == "collision" then cl.collision
  else Option.none

/-- `getattr(current_policy, key, None)` for the numeric `CurrentPolicy`
keys used by `_extract_home_row`. -/
def current_policy_field_q (key : String) (cp : CurrentPolicy) : Option ℚ :=
  if key == "home_dwelling" then cp.home_dwelling
  else if key == "home_other_structures" then cp.home_other_structures
  else if key == "home_personal_property" then cp.home_personal_property
  else if key == "home_loss_of_use" then cp.home_loss_of_use
  else if key == "home_liability" then cp.home_liability
  else if key == "home_deductible" then cp.home_deductible
  else if key == "home_2_dwelling" then cp.home_2_dwelling
  else if key == "home_2_other_structures" then cp.home_2_other_structures
  else if key == "home_2_personal_property" then cp.home_2_personal_property
  else if key == "home_2_loss_of_use" then cp.home_2_loss_of_use
  else if key == "home_2_liability" then cp.home_2_liability
  else if key == "home_2_deductible" then cp.home_2_deductible
  else Option.none

/-- `getattr(current_policy, key, None)` for the keys used by
`_extract_auto_row` / `_extract_umbrella_row` (some are string-typed on
`CurrentPolicy`). -/
def current_policy_field (key : String) (cp : CurrentPolicy) : Val :=
  if key == "auto_limits" then strVal cp.auto_limits
  else if key == "auto_um_uim" then strVal cp.auto_um_uim
  else if key == "auto_comp_deductible" then strVal cp.auto_comp_deductible
  else if key == "auto_collision_deductible" then numVal cp.auto_collision_deductible
  else if key == "umbrella_limits" then strVal cp.umbrella_limits
  else if key == "umbrella_deductible" then numVal cp.umbrella_deductible
  else Val.none

/-- `SciotoComparisonPDF._get_umbrella_limits`: `None` maps to the
sentinel, a limit of at least one million renders as `"{n}M CSL"`, smaller
values return as currency. -/
def SciotoComparisonPDF.get_umbrella_limits (quote : InsuranceQuote) : String :=
  match quote.coverage_limits.umbrella_limit with
  | Option.none => "-"
  | Option.some limit =>
    if limit ≥ 1000000 then
      let m := truncQ (limit / 1000000)
      s!"{m}M CSL"
    else fmt_currency (Option.some limit)

/-- `SciotoComparisonPDF._extract_premium_row`: one formatted premium per
data column for the given policy type tag. -/
def extract_premium_row (policy_type : String)
    (current_policy : Option CurrentPolicy) (carriers : List CarrierBundle) : List String :=
  let values : List String :=
    match current_policy with
    | Option.some cp =>
      if policy_type == "home" then [fmt_currency cp.home_premium]
      else if policy_type == "home_2" then [fmt_currency cp.home_2_premium]
      else if policy_type == "auto" then [fmt_currency cp.auto_premium]
      else if policy_type == "umbrella" then [fmt_currency cp.umbrella_premium]
      else []
    | Option.none => []
  values ++ carriers.map (fun carrier =>
    if policy_type == "home" && carrier.home.isSome then
      fmt_currency (carrier.home.map (fun q => q.annual_premium))
    else if policy_type == "home_2" && carrier.home_2.isSome then
      fmt_currency (carrier.home_2.map (fun q => q.annual_premium))
    else if policy_type == "auto" && carrier.auto.isSome then
      fmt_currency (carrier.auto.map (fun q => q.annual_premium))
    else if policy_type == "umbrella" && carrier.umbrella.isSome then
      fmt_currency (carrier.umbrella.map (fun q => q.annual_premium))
    else "-")

/-- `SciotoComparisonPDF._extract_home_row` for the given dwelling
(1 or 2); `current_key` is `None` for fields that do not exist on
`CurrentPolicy`.  For dwelling 2 the current key gets its `home_` prefix
replaced by `home_2_`. -/
def extract_home_row (carrier_key : String) (current_key : Option String)
    (current_policy : Option CurrentPolicy) (carriers : List CarrierBundle)
    (dwelling : ℕ) : List String :=
  let effective_current_key : Option String := current_key.map (fun k =>
    if dwelling == 2 then "home_2_" ++ k.drop 5 else k)
  let values : List String :=
    match current_policy, effective_current_key with
    | Option.some cp, Option.some k => [fmt_currency (current_policy_field_q k cp)]
    | Option.some _, Option.none => ["-"]
    | Option.none, _ => []
  values ++ carriers.map (fun carrier =>
    let quote := if dwelling == 1 then carrier.home else carrier.home_2
    match quote with
    | Option.none => "-"
    | Option.some q =>
      if carrier_key == "deductible" || carrier_key == "wind_hail_deductible" then
        let val : Option ℚ :=
          if carrier_key == "deductible" then Option.some q.deductible
          else q.wind_hail_deductible
        if truthyQ val then fmt_currency val else "-"
      else
        match coverage_limit_field carrier_key q.coverage_limits with
        | Option.none => "-"
        | Option.some v => fmt_currency (Option.some v))

/-- `SciotoComparisonPDF._extract_auto_row`. -/
def extract_auto_row (carrier_key : String) (current_key : String)
    (current_policy : Option CurrentPolicy) (carriers : List CarrierBundle) : List String :=
  let values : List String :=
    match current_policy with
    | Option.some cp =>
      [match current_policy_field current_key cp with
       | Val.none => "-"
       | Val.str s => s
       | Val.num q => fmt_currency (Option.some q)]
    | Option.none => []
  values ++ carriers.map (fun carrier =>
    match carrier.auto with
    | Option.none => "-"
    | Option.some q =>
      if carrier_key == "limits" then get_auto_limits q
      else if carrier_key == "collision" then fmt_currency (Option.some q.deductible)
      else
        match coverage_limit_field carrier_key q.coverage_limits with
        | Option.none => "-"
        | Option.some v => fmt_currency (Option.some v))

/-- `SciotoComparisonPDF._extract_umbrella_row`. -/
def extract_umbrella_row (carrier_key : String) (current_key : String)
    (current_policy : Option CurrentPolicy) (carriers : List CarrierBundle) : List String :=
  let values : List String :=
    match current_policy with
    | Option.some cp =>
      [match current_policy_field current_key cp with
       | Val.none => "-"
       | Val.str s => s
       | Val.num q => fmt_currency (Option.some q)]
    | Option.none => []
  values ++ carriers.map (fun carrier =>
    match carrier.umbrella with
    | Option.none => "-"
    | Option.some q =>
      if carrier_key == "limits" then SciotoComparisonPDF.get_umbrella_limits q
      else
        if truthyQ (Option.some q.deductible)
        then fmt_currency (Option.some q.deductible) else "-")

/-- `SciotoComparisonPDF._add_table_header`: label column plus one header
cell per data column (current policy first).  The width-dependent name
truncation (`data_col_w < 35`) is drawing geometry and is elided. -/
def add_table_header (current_policy : Option CurrentPolicy)
    (carriers : List CarrierBundle) : PdfRow :=
  PdfRow.headerRow
    ((match current_policy with
      | Option.some cp => [cp.carrier_name]
      | Option.none => [])
     ++ carriers.map (fun c => c.carrier_name))

/-- `SciotoComparisonPDF._add_total_row`: the per-column bundle/baseline
`total_premium` values, currency formatted. -/
def add_total_row (current_policy : Option CurrentPolicy)
    (carriers : List CarrierBundle) : PdfRow :=
  PdfRow.totalRow
    ((match current_policy with
      | Option.some cp => [fmt_currency (Option.some cp.total_premium)]
      | Option.none => [])
     ++ carriers.map (fun b => fmt_currency (Option.some b.total_premium)))

/-- `SciotoComparisonPDF._add_premium_section`: premium rows for the
categories in `sections_included` (home split in two under multi-dwelling),
then the Total row. -/
def add_premium_section (current_policy : Option CurrentPolicy)
    (carriers : List CarrierBundle) (sections_included : List String) : List PdfRow :=
  let is_multi_dw := session_has_multi_dwelling current_policy carriers
  [PdfRow.divider "PREMIUM SUMMARY"]
  ++ (if sections_included.contains "home" then
        if is_multi_dw then
          [PdfRow.dataRow "Home 1 Premium" (extract_premium_row "home" current_policy carriers),
           PdfRow.dataRow "Home 2 Premium" (extract_premium_row "home_2" current_policy carriers)]
        else
          [PdfRow.dataRow "Home Premium" (extract_premium_row "home" current_policy carriers)]
      else [])
  ++ (if sections_included.contains "auto" then
        [PdfRow.dataRow "Auto Premium" (extract_premium_row "auto" current_policy carriers)]
      else [])
  ++ (if sections_included.contains "umbrella" then
        [PdfRow.dataRow "Umbrella Premium" (extract_premium_row "umbrella" current_policy carriers)]
      else [])
  ++ [add_total_row current_policy carriers]

/-- The generator's `home_rows` table:
`(label, carrier_key, current_key)`. -/
def home_rows : List (String × String × Option String) :=
  [("Dwelling (Cov A)", "dwelling", Option.some "home_dwelling"),
   ("Other Structures (B)", "other_structures", Option.some "home_other_structures"),
   ("Personal Property (C)", "personal_property", Option.some "home_personal_property"),
   ("Loss of Use (D)", "loss_of_use", Option.some "home_loss_of_use"),
   ("Personal Liability (E)", "personal_liability", Option.some "home_liability"),
   ("Medical Payments (F)", "medical_payments", Option.none),
   ("All-Peril Deductible", "deductible", Option.some "home_deductible"),
   ("Wind/Hail Deductible", "wind_hail_deductible", Option.none)]

/-- `SciotoComparisonPDF._add_home_section`: the HOME DETAILS divider, then
the eight detail rows once (single dwelling) or twice under DWELLING 1/2
sub-dividers (multi-dwelling). -/
def add_home_section (current_policy : Option CurrentPolicy)
    (carriers : List CarrierBundle) : List PdfRow :=
  let is_multi_dw := session_has_multi_dwelling current_policy carriers
  [PdfRow.divider "HOME DETAILS"]
  ++ (if is_multi_dw then
        [PdfRow.subDivider "DWELLING 1"]
        ++ home_rows.map (fun t =>
            PdfRow.dataRow t.1 (extract_home_row t.2.1 t.2.2 current_policy carriers 1))
        ++ [PdfRow.subDivider "DWELLING 2"]
        ++ home_rows.map (fun t =>
            PdfRow.dataRow t.1 (extract_home_row t.2.1 t.2.2 current_policy carriers 2))
      else
        home_rows.map (fun t =>
          PdfRow.dataRow t.1 (extract_home_row t.2.1 t.2.2 current_policy carriers 1)))

/-- The generator's `auto_rows` table. -/
def auto_rows : List (String × String × String) :=
  [("Limits", "limits", "auto_limits"),
   ("UM/UIM", "um_uim", "auto_um_uim"),
   ("Deductibles (Comp)", "comprehensive", "auto_comp_deductible"),
   ("Deductibles (Collision)", "collision", "auto_collision_deductible")]

/-- `SciotoComparisonPDF._add_auto_section`. -/
def add_auto_section (current_policy : Option CurrentPolicy)
    (carriers : List CarrierBundle) : List PdfRow :=
  [PdfRow.divider "AUTO DETAILS"]
  ++ auto_rows.map (fun t =>
      PdfRow.dataRow t.1 (extract_auto_row t.2.1 t.2.2 current_policy carriers))

/-- The generator's `umbrella_rows` table. -/
def umbrella_rows : List (String × String × String) :=
  [("Limits", "limits", "umbrella_limits"),
   ("Deductible", "deductible", "umbrella_deductible")]

/-- `SciotoComparisonPDF._add_umbrella_section`. -/
def add_umbrella_section (current_policy : Option CurrentPolicy)
    (carriers : List CarrierBundle) : List PdfRow :=
  [PdfRow.divider "UMBRELLA DETAILS"]
  ++ umbrella_rows.map (fun t =>
      PdfRow.dataRow t.1 (extract_umbrella_row t.2.1 t.2.2 current_policy carriers))

/-- `SciotoComparisonPDF.add_comparison_table`: table header, the always
present Premium Summary, then the Home/Auto/Umbrella sections, each emitted
only when its category is in `sections_included`, in that fixed order. -/
def add_comparison_table (session : ComparisonSession) : List PdfRow :=
  [add_table_header session.current_policy session.carriers]
  ++ add_premium_section session.current_policy session.carriers session.sections_included
  ++ (if session.sections_included.contains "home" then
        add_home_section session.current_policy session.carriers
      else [])
  ++ (if session.sections_included.contains "auto" then
        add_auto_section session.current_policy session.carriers
      else [])
  ++ (if session.sections_included.contains "umbrella" then
        add_umbrella_section session.current_policy session.carriers
      else [])

/-- The carrier-count validation at the top of
`generator.generate_comparison_pdf`:
`if not session.carriers or len(session.carriers) > 6: raise
ValueError("Must have 2-6 carriers")`.  (The sheets-side
`SheetsClient.create_comparison` performs no carrier-count validation at
all.) -/
def generate_comparison_pdf_check (session : ComparisonSession) : Except String Unit :=
  if session.carriers.isEmpty || session.carriers.length > 6 then
    Except.error "Must have 2-6 carriers"
  else Except.ok ()

/-!
## Validator (`app/extraction/validator.py`)
-/

/-- `validator.VALID_DEDUCTIBLES`. -/
def VALID_DEDUCTIBLES : List ℚ := [250, 500, 1000, 2500, 5000, 10000]

/-- `validator.validate_quote`.  Steps 1-3 accumulate warnings; step 4 then
iterates `quote.coverage_limits.items()`.  `CoverageLimits` is a pydantic
`BaseModel` (see `models.py`), and pydantic `BaseModel` (v1 or v2 — the
code's `model_copy` pins v2) defines no `items` method, so that attribute
lookup raises `AttributeError` on every call, before the function can
return; the embedding therefore reaches `Except.error` unconditionally
after mirroring the live part of the computation. -/
def validate_quote (quote : InsuranceQuote) : Except String (InsuranceQuote × List String) :=
  let warnings : List String := []
  -- 1. Carrier name
  let warnings :=
    if quote.carrier_name == "" || quote.carrier_name.trim == ""
    then warnings ++ ["Missing carrier name"] else warnings
  -- 2. Annual premium range
  let warnings :=
    if quote.annual_premium ≤ 0 then
      warnings ++ ["Annual premium is non-positive: $" ++ fmtComma2 quote.annual_premium]
    else if quote.annual_premium ≥ 50000 then
      warnings ++ ["Annual premium seems too high: $" ++ fmtComma2 quote.annual_premium]
    else warnings
  -- 3. Non-standard deductible
  let warnings :=
    if VALID_DEDUCTIBLES.contains quote.deductible then warnings
    else warnings ++ ["Non-standard deductible: $" ++ fmtComma0 quote.deductible]
  -- 4. `for key, value in quote.coverage_limits.items():` — AttributeError,
  -- `CoverageLimits` has no `.items()`
  let _ := warnings
  Except.error "AttributeError: 'CoverageLimits' object has no attribute 'items'"

/-!
## Spec-side definitions

Independent reformulations taken from the specification's words, used to
compare against the embedded code.
-/

/-- Spec-side description of a bundle column total: the sum of the annual
premiums of all populated quote slots, in slot order. -/
def spec_slot_premium_sum (b : CarrierBundle) : ℚ :=
  ((bundle_slots b).filterMap id).foldl (fun acc q => acc + q.annual_premium) 0

/-- Spec-side description of a baseline column total: the sum of the four
category premiums, absent premiums contributing 0. -/
def spec_category_premium_sum (cp : CurrentPolicy) : ℚ :=
  cp.home_premium.getD 0 + cp.home_2_premium.getD 0
    + cp.auto_premium.getD 0 + cp.umbrella_premium.getD 0

/-- Spec-side description of first-occurrence de-duplication: keep each
element the first time it is seen, dropping its later occurrences. -/
def spec_dedup : List String → List String
  | [] => []
  | x :: xs => x :: spec_dedup (xs.filter (fun y => !(y == x)))
termination_by l => l.length
decreasing_by
  simp only [List.length_cons]
  exact Nat.lt_succ_of_le (xs.length_filter_le _)

/-!
## Concrete sample data

Shared concrete inputs used by counterexamples and witnesses.  The premium
figures 1500/1200/300 and the `sections_included = {home, auto}` scope are
the specification's own worked example.
-/

/-- A home quote with annual premium 1500. -/
def sampleHomeQuote : InsuranceQuote :=
  { carrier_name := "Erie Insurance", policy_type := "HO3",
    annual_premium := 1500, deductible := 1000, confidence := "high" }

/-- An auto quote with annual premium 1200. -/
def sampleAutoQuote : InsuranceQuote :=
  { carrier_name := "Erie Insurance", policy_type := "Auto",
    annual_premium := 1200, deductible := 500, confidence := "high" }

/-- An umbrella quote with annual premium 300. -/
def sampleUmbrellaQuote : InsuranceQuote :=
  { carrier_name := "Erie Insurance", policy_type := "Umbrella",
    annual_premium := 300, deductible := 0, confidence := "high" }

/-- A second carrier's home quote with annual premium 1000. -/
def sampleHomeQuoteB : InsuranceQuote :=
  { carrier_name := "Westfield Insurance", policy_type := "HO5",
    annual_premium := 1000, deductible := 2500, confidence := "high" }

/-- The spec's example bundle: home 1500, auto 1200, umbrella 300. -/
def bundleAllThree : CarrierBundle :=
  { carrier_name := "Erie Insurance",
    home := Option.some sampleHomeQuote,
    auto := Option.some sampleAutoQuote,
    umbrella := Option.some sampleUmbrellaQuote }

/-- A second, home-only bundle (the comparison needs at least 2 carriers). -/
def bundleHomeOnly : CarrierBundle :=
  { carrier_name := "Westfield Insurance", home := Option.some sampleHomeQuoteB }

/-- The spec's worked total-scoping example:
`sections_included = {home, auto}`, umbrella out of scope. -/
def sessionScopedTotals : ComparisonSession :=
  { client_name := "Test Client", date := "2025-01-01",
    carriers := [bundleAllThree, bundleHomeOnly],
    sections_included := ["home", "auto"] }

/-- A session whose only in-scope category is `home`. -/
def sessionHomeOnly : ComparisonSession :=
  { client_name := "Test Client", date := "2025-01-01",
    carriers := [bundleAllThree, bundleHomeOnly],
    sections_included := ["home"] }

/-- A session with exactly one carrier. -/
def oneCarrierSession : ComparisonSession :=
  { client_name := "Test Client", date := "2025-01-01",
    carriers := [bundleAllThree], sections_included := ["home"] }

/-- A session with no carriers. -/
def zeroCarrierSession : ComparisonSession :=
  { client_name := "Test Client", date := "2025-01-01",
    carriers := [], sections_included := ["home"] }

/-- A session with seven carriers. -/
def sevenCarrierSession : ComparisonSession :=
  { client_name := "Test Client", date := "2025-01-01",
    carriers := List.replicate 7 bundleHomeOnly, sections_included := ["home"] }

/-- A bundle whose two populated slots carry endorsement lists
`["A", "B"]` and `["B", "C"]` (the spec's dedup example). -/
def endorsementBundle : CarrierBundle :=
  { carrier_name := "Erie Insurance",
    home := Option.some { sampleHomeQuote with endorsements := ["A", "B"] },
    auto := Option.some { sampleAutoQuote with endorsements := ["B", "C"] } }

/-- An auto quote with all three split limits present but a zero (hence
falsy) bodily-injury-per-person limit, and no CSL. -/
def zeroBIQuote : InsuranceQuote :=
  { carrier_name := "Erie Insurance", policy_type := "Auto",
    annual_premium := 1200, deductible := 500, confidence := "high",
    coverage_limits := { bi_per_person := Option.some 0,
                         bi_per_accident := Option.some 500000,
                         pd_per_accident := Option.some 250000 } }

/-- The spec's split-limit example: 500000/500000/250000. -/
def splitLimitQuote : InsuranceQuote :=
  { carrier_name := "Erie Insurance", policy_type := "Auto",
    annual_premium := 1200, deductible := 500, confidence := "high",
    coverage_limits := { bi_per_person := Option.some 500000,
                         bi_per_accident := Option.some 500000,
                         pd_per_accident := Option.some 250000 } }

/-- The spec's 1M CSL example. -/
def cslMillionQuote : InsuranceQuote :=
  { carrier_name := "Erie Insurance", policy_type := "Auto",
    annual_premium := 1200, deductible := 500, confidence := "high",
    coverage_limits := { csl := Option.some 1000000 } }

/-- The spec's 500K CSL example. -/
def cslHalfMillionQuote : InsuranceQuote :=
  { carrier_name := "Erie Insurance", policy_type := "Auto",
    annual_premium := 1200, deductible := 500, confidence := "high",
    coverage_limits := { csl := Option.some 500000 } }

/-- A representative quote for exercising the validator. -/
def validatorSampleQuote : InsuranceQuote :=
  { carrier_name := "Erie Insurance", policy_type := "HO3",
    annual_premium := 1850, deductible := 1000, confidence := "high" }

/-!
## Helper lemmas

General facts about the grid builder shared by several claim proofs.
-/

theorem gdr_map_head (hc : Bool) (ndc : ℕ) (labels : List String)
    (data : Option (List (List Cell))) :
    (grid_detail_rows hc ndc labels data).map (fun r => r.head?) =
      labels.map (fun l => some (Cell.str l)) := by
  cases data <;>
    · unfold grid_detail_rows grid_label_row
      rw [List.map_map]
      conv_rhs => rw [← List.enumFrom_map_snd 0 labels, ← List.enum_eq_enumFrom, List.map_map]
      rfl

theorem replicate_one_add_head (n : ℕ) (a : Cell) :
    (List.replicate (1 + n) a).head? = some a := by
  rw [Nat.add_comm]
  simp [List.replicate_succ]

theorem take_one_add_cons_head (n : ℕ) (x : Cell) (l : List Cell) :
    (List.take (1 + n) (x :: l)).head? = some x := by
  rw [Nat.add_comm, List.take_succ_cons]
  rfl

/-- The per-row labels (first cells) of the single-dwelling grid. -/
theorem grid_heads_single (s : ComparisonSession) (n : ℕ)
    (h : has_multi_dwelling s = false) :
    (build_full_grid s n).1.map (fun r => r.head?) =
      [some (Cell.str ""), some (Cell.str ""), some (Cell.str "Premium Breakout"),
       some (Cell.str "Auto Premium"), some (Cell.str "Home Premium"),
       some (Cell.str "Umbrella Premium"), some (Cell.str "Total"),
       some (Cell.str ""), some (Cell.str "Home Coverage"),
       some (Cell.str "Dwelling"), some (Cell.str "Other Structures"),
       some (Cell.str "Liability"), some (Cell.str "Personal Property"),
       some (Cell.str "Loss of Use"), some (Cell.str "Deductible"),
       some (Cell.str ""), some (Cell.str "Auto Coverage"),
       some (Cell.str "Limits"), some (Cell.str "UM/UIM"),
       some (Cell.str "Comprehensive"), some (Cell.str "Collision"),
       some (Cell.str ""), some (Cell.str "Umbrella Coverage"),
       some (Cell.str "Limits"), some (Cell.str "Deductible")] := by
  simp [build_full_grid, h, gdr_map_head, grid_label_row, replicate_one_add_head,
    take_one_add_cons_head]

/-- The per-row labels (first cells) of the multi-dwelling grid. -/
theorem grid_heads_multi (s : ComparisonSession) (n : ℕ)
    (h : has_multi_dwelling s = true) :
    (build_full_grid s n).1.map (fun r => r.head?) =
      [some (Cell.str ""), some (Cell.str ""), some (Cell.str "Premium Breakout"),
       some (Cell.str "Auto Premium"), some (Cell.str "Home 1 Premium"),
       some (Cell.str "Home 2 Premium"), some (Cell.str "Umbrella Premium"),
       some (Cell.str "Total"),
       some (Cell.str ""), some (Cell.str "Home Coverage"),
       some (Cell.str "Dwelling 1"),
       some (Cell.str "Dwelling"), some (Cell.str "Other Structures"),
       some (Cell.str "Liability"), some (Cell.str "Personal Property"),
       some (Cell.str "Loss of Use"), some (Cell.str "Deductible"),
       some (Cell.str "Dwelling 2"),
       some (Cell.str "Dwelling"), some (Cell.str "Other Structures"),
       some (Cell.str "Liability"), some (Cell.str "Personal Property"),
       some (Cell.str "Loss of Use"), some (Cell.str "Deductible"),
       some (Cell.str ""), some (Cell.str "Auto Coverage"),
       some (Cell.str "Limits"), some (Cell.str "UM/UIM"),
       some (Cell.str "Comprehensive"), some (Cell.str "Collision"),
       some (Cell.str ""), some (Cell.str "Umbrella Coverage"),
       some (Cell.str "Limits"), some (Cell.str "Deductible")] := by
  simp [build_full_grid, h, gdr_map_head, grid_label_row, replicate_one_add_head,
    take_one_add_cons_head]

/-- Single-dwelling `GridConfig` metadata. -/
theorem grid_config_single (s : ComparisonSession) (n : ℕ)
    (h : has_multi_dwelling s = false) :
    (build_full_grid s n).2.total_rows = 25
    ∧ (build_full_grid s n).2.header_rows = [1, 3, 9, 17, 23]
    ∧ (build_full_grid s n).2.sub_header_rows = []
    ∧ (build_full_grid s n).2.currency_rows = [4, 5, 6, 7, 10, 11, 12, 13, 14, 15]
    ∧ (build_full_grid s n).2.even_data_rows = [4, 6, 10, 12, 14, 18, 20, 24]
    ∧ (build_full_grid s n).2.total_row = 7 := by
  refine ⟨?_, ?_, ?_, ?_, ?_, ?_⟩ <;> simp [build_full_grid, h] <;> decide

/-- Multi-dwelling `GridConfig` metadata. -/
theorem grid_config_multi (s : ComparisonSession) (n : ℕ)
    (h : has_multi_dwelling s = true) :
    (build_full_grid s n).2.total_rows = 34
    ∧ (build_full_grid s n).2.header_rows = [1, 3, 10, 26, 32]
    ∧ (build_full_grid s n).2.sub_header_rows = [11, 18]
    ∧ (build_full_grid s n).2.currency_rows =
        [4, 5, 6, 7, 8, 12, 13, 14, 15, 16, 17, 19, 20, 21, 22, 23, 24]
    ∧ (build_full_grid s n).2.even_data_rows =
        [4, 6, 8, 12, 14, 16, 19, 21, 23, 27, 29, 33]
    ∧ (build_full_grid s n).2.total_row = 8 := by
  refine ⟨?_, ?_, ?_, ?_, ?_, ?_⟩ <;> simp [build_full_grid, h] <;> decide

/-- The single-dwelling grid has 25 rows. -/
theorem grid_length_single (s : ComparisonSession) (n : ℕ)
    (h : has_multi_dwelling s = false) :
    (build_full_grid s n).1.length = 25 := by
  have hmap := congrArg List.length (grid_heads_single s n h)
  simpa using hmap

/-- The multi-dwelling grid has 34 rows. -/
theorem grid_length_multi (s : ComparisonSession) (n : ℕ)
    (h : has_multi_dwelling s = true) :
    (build_full_grid s n).1.length = 34 := by
  have hmap := congrArg List.length (grid_heads_multi s n h)
  simpa using hmap

/-- Extract a row and its head cell from a `map head?` description of the
grid. -/
theorem head_of_map_head (g : List (List Cell)) (L : List (Option Cell))
    (hL : g.map (fun r => r.head?) = L) (i : ℕ) (c : Option Cell)
    (hc : L[i]? = some c) : ∃ r, g[i]? = some r ∧ r.head? = c := by
  have h1 : (g.map (fun r => r.head?))[i]? = some c := by rw [hL]; exact hc
  rw [List.getElem?_map] at h1
  rcases Option.map_eq_some'.mp h1 with ⟨r, hr, hrc⟩
  exact ⟨r, hr, hrc⟩

/-- Bridge: a grid row whose head label lies in a given label list,
obtained from the `map head?` description. -/
theorem head_mem_bridge (g : List (List Cell)) (L : List (Option Cell))
    (hL : g.map (fun r => r.head?) = L) (i : ℕ) (labels : List String)
    (h : ∃ lbl ∈ labels, L[i]? = some (some (Cell.str lbl))) :
    ∃ r, g[i]? = some r ∧ ∃ lbl ∈ labels, r.head? = some (Cell.str lbl) := by
  rcases h with ⟨lbl, hlbl, hidx⟩
  rcases head_of_map_head g L hL i _ hidx with ⟨r, hr, hrc⟩
  exact ⟨r, hr, lbl, hlbl, hrc⟩

/-!
## Claim theorems
-/

/-- C1 (confirmed).  Single-pass metadata/content synchronization: for
every session with 2-6 carriers, the `GridConfig` returned by
`_build_full_grid` (invoked, as in `create_comparison`, with
`_get_num_data_columns(session)`) matches the grid it is returned with:
`total_rows` equals the number of grid rows; the row at index `total_row`
(1-based) is the unique row labelled `"Total"`; every index in
`header_rows` points at a section-header or title/carrier-name header row
(the title row's column-A label is `""` because the title lives in column B
above the logo merge, and the carrier-name row is labelled
`"Premium Breakout"`); every index in `sub_header_rows` points at a
`Dwelling 1`/`Dwelling 2` sub-header row; and every recorded index lies
within `1..total_rows`. -/
theorem grid_metadata_sync (s : ComparisonSession)
    (_h2 : 2 ≤ s.carriers.length) (_h6 : s.carriers.length ≤ 6) :
    (build_full_grid s (get_num_data_columns s)).2.total_rows
        = (build_full_grid s (get_num_data_columns s)).1.length
    ∧ (∃ r, (build_full_grid s (get_num_data_columns s)).1[
          (build_full_grid s (get_num_data_columns s)).2.total_row - 1]? = some r
        ∧ r.head? = some (Cell.str "Total"))
    ∧ List.countP (fun o => o == some (Cell.str "Total"))
        ((build_full_grid s (get_num_data_columns s)).1.map (fun r => r.head?)) = 1
    ∧ (∀ i ∈ (build_full_grid s (get_num_data_columns s)).2.header_rows,
        ∃ r, (build_full_grid s (get_num_data_columns s)).1[i - 1]? = some r
          ∧ ∃ lbl ∈ ["", "Premium Breakout", "Home Coverage",
                "Auto Coverage", "Umbrella Coverage"],
              r.head? = some (Cell.str lbl))
    ∧ (∀ i ∈ (build_full_grid s (get_num_data_columns s)).2.sub_header_rows,
        ∃ r, (build_full_grid s (get_num_data_columns s)).1[i - 1]? = some r
          ∧ ∃ lbl ∈ ["Dwelling 1", "Dwelling 2"], r.head? = some (Cell.str lbl))
    ∧ (∀ i ∈ (build_full_grid s (get_num_data_columns s)).2.header_rows,
        1 ≤ i ∧ i ≤ (build_full_grid s (get_num_data_columns s)).2.total_rows)
    ∧ (∀ i ∈ (build_full_grid s (get_num_data_columns s)).2.sub_header_rows,
        1 ≤ i ∧ i ≤ (build_full_grid s (get_num_data_columns s)).2.total_rows)
    ∧ (∀ i ∈ (build_full_grid s (get_num_data_columns s)).2.currency_rows,
        1 ≤ i ∧ i ≤ (build_full_grid s (get_num_data_columns s)).2.total_rows)
    ∧ (∀ i ∈ (build_full_grid s (get_num_data_columns s)).2.even_data_rows,
        1 ≤ i ∧ i ≤ (build_full_grid s (get_num_data_columns s)).2.total_rows)
    ∧ 1 ≤ (build_full_grid s (get_num_data_columns s)).2.total_row
    ∧ (build_full_grid s (get_num_data_columns s)).2.total_row
        ≤ (build_full_grid s (get_num_data_columns s)).2.total_rows := by
  cases hm : has_multi_dwelling s
  · obtain ⟨ht, hh, hsub, hcur, heven, htot⟩ := grid_config_single s (get_num_data_columns s) hm
    have hheads := grid_heads_single s (get_num_data_columns s) hm
    have hlen := grid_length_single s (get_num_data_columns s) hm
    refine ⟨by rw [ht, hlen], ?_, by rw [hheads]; decide, ?_, ?_, ?_, ?_, ?_, ?_, ?_, ?_⟩
    · rw [htot]
      exact head_of_map_head _ _ hheads 6 (some (Cell.str "Total")) (by rfl)
    · intro i hi
      rw [hh] at hi
      apply head_mem_bridge _ _ hheads
      fin_cases hi
      · exact ⟨"", by decide, rfl⟩
      · exact ⟨"Premium Breakout", by decide, rfl⟩
      · exact ⟨"Home Coverage", by decide, rfl⟩
      · exact ⟨"Auto Coverage", by decide, rfl⟩
      · exact ⟨"Umbrella Coverage", by decide, rfl⟩
    · intro i hi
      rw [hsub] at hi
      simp at hi
    · rw [hh, ht]; decide
    · rw [hsub, ht]; decide
    · rw [hcur, ht]; decide
    · rw [heven, ht]; decide
    · rw [htot]; decide
    · rw [htot, ht]; decide
  · obtain ⟨ht, hh, hsub, hcur, heven, htot⟩ := grid_config_multi s (get_num_data_columns s) hm
    have hheads := grid_heads_multi s (get_num_data_columns s) hm
    have hlen := grid_length_multi s (get_num_data_columns s) hm
    refine ⟨by rw [ht, hlen], ?_, by rw [hheads]; decide, ?_, ?_, ?_, ?_, ?_, ?_, ?_, ?_⟩
    · rw [htot]
      exact head_of_map_head _ _ hheads 7 (some (Cell.str "Total")) (by rfl)
    · intro i hi
      rw [hh] at hi
      apply head_mem_bridge _ _ hheads
      fin_cases hi
      · exact ⟨"", by decide, rfl⟩
      · exact ⟨"Premium Breakout", by decide, rfl⟩
      · exact ⟨"Home Coverage", by decide, rfl⟩
      · exact ⟨"Auto Coverage", by decide, rfl⟩
      · exact ⟨"Umbrella Coverage", by decide, rfl⟩
    · intro i hi
      rw [hsub] at hi
      apply head_mem_bridge _ _ hheads
      fin_cases hi
      · exact ⟨"Dwelling 1", by decide, rfl⟩
      · exact ⟨"Dwelling 2", by decide, rfl⟩
    · rw [hh, ht]; decide
    · rw [hsub, ht]; decide
    · rw [hcur, ht]; decide
    · rw [heven, ht]; decide
    · rw [htot]; decide
    · rw [htot, ht]; decide

/-- Witness for C1 at a concrete 2-carrier session. -/
theorem grid_metadata_sync_witness :
    2 ≤ sessionScopedTotals.carriers.length
    ∧ sessionScopedTotals.carriers.length ≤ 6
    ∧ (build_full_grid sessionScopedTotals (get_num_data_columns sessionScopedTotals)).2.total_rows
        = (build_full_grid sessionScopedTotals
            (get_num_data_columns sessionScopedTotals)).1.length :=
  ⟨by decide, by decide,
    (grid_metadata_sync sessionScopedTotals (by decide) (by decide)).1⟩

/-- C3 (confirmed).  Derived total row count: the number of rows of the
compiled grid (and the `total_rows` recorded in the config) is 34 when the
multi-dwelling flag holds and 25 otherwise, for every session and every
column count — in particular it is a pure function of
`(sections_included, multiDwellingFlag)` that is constant in
`sections_included`; a session with `sections_included = {home}` and no
secondary dwelling gets 25 rows, and populating any carrier's `home_2` slot
(or the baseline's secondary-dwelling premium) turns the flag on and yields
34 rows, a delta of 9. -/
theorem total_row_count_derived (s : ComparisonSession) (n : ℕ) :
    (build_full_grid s n).1.length = (if has_multi_dwelling s then 34 else 25)
    ∧ (build_full_grid s n).2.total_rows = (if has_multi_dwelling s then 34 else 25) := by
  cases hm : has_multi_dwelling s
  · simpa [hm] using ⟨grid_length_single s n hm, (grid_config_single s n hm).1⟩
  · simpa [hm] using ⟨grid_length_multi s n hm, (grid_config_multi s n hm).1⟩

theorem grid_pad_row_length (hc : Bool) (ndc : ℕ) (hr : List Cell) :
    (grid_pad_row hc ndc hr).length = ndc := by
  cases hc <;> simp [grid_pad_row]

theorem gdr_map_length (hc : Bool) (ndc : ℕ) (labels : List String)
    (data : Option (List (List Cell))) :
    (grid_detail_rows hc ndc labels data).map (fun r => r.length) =
      labels.map (fun _ => ndc + 1) := by
  cases data <;>
    · unfold grid_detail_rows grid_label_row
      rw [List.map_map]
      conv_rhs => rw [← List.enumFrom_map_snd 0 labels, ← List.enum_eq_enumFrom, List.map_map]
      simp [Function.comp, grid_pad_row_length]

/-- Row lengths of the single-dwelling grid: every row has `n + 1` cells
(one label cell plus `n` data cells) as soon as there is at least one data
column. -/
theorem grid_row_lengths_single (s : ComparisonSession) (n : ℕ)
    (h : has_multi_dwelling s = false) (hn : 1 ≤ n) :
    (build_full_grid s n).1.map (fun r => r.length) =
      [n+1, n+1, n+1, n+1, n+1, n+1, n+1, n+1, n+1, n+1, n+1, n+1, n+1,
       n+1, n+1, n+1, n+1, n+1, n+1, n+1, n+1, n+1, n+1, n+1, n+1] := by
  simp [build_full_grid, h, gdr_map_length, grid_label_row, grid_pad_row_length]
  omega

/-- Row lengths of the multi-dwelling grid. -/
theorem grid_row_lengths_multi (s : ComparisonSession) (n : ℕ)
    (h : has_multi_dwelling s = true) (hn : 1 ≤ n) :
    (build_full_grid s n).1.map (fun r => r.length) =
      [n+1, n+1, n+1, n+1, n+1, n+1, n+1, n+1, n+1, n+1, n+1, n+1, n+1,
       n+1, n+1, n+1, n+1, n+1, n+1, n+1, n+1, n+1, n+1, n+1, n+1, n+1,
       n+1, n+1, n+1, n+1, n+1, n+1, n+1, n+1] := by
  simp [build_full_grid, h, gdr_map_length, grid_label_row, grid_pad_row_length]
  omega

/-- C10 (confirmed).  Grid rectangularity: whenever the session has at
least one data column (some carrier or a baseline), every row of the grid
returned by `_build_full_grid` — title, date, header, separator and padded
rows included — has exactly `1 + numDataColumns` cells. -/
theorem grid_rectangular (s : ComparisonSession)
    (hn : 1 ≤ get_num_data_columns s) :
    ∀ r ∈ (build_full_grid s (get_num_data_columns s)).1,
      r.length = 1 + get_num_data_columns s := by
  intro r hr
  have hmem : r.length ∈ (build_full_grid s (get_num_data_columns s)).1.map
      (fun row => row.length) := List.mem_map_of_mem _ hr
  cases hm : has_multi_dwelling s
  · rw [grid_row_lengths_single s _ hm hn] at hmem
    simp at hmem
    omega
  · rw [grid_row_lengths_multi s _ hm hn] at hmem
    simp at hmem
    omega

/-- Witness for C10 at a concrete 2-carrier session. -/
theorem grid_rectangular_witness :
    1 ≤ get_num_data_columns sessionScopedTotals
    ∧ ∀ r ∈ (build_full_grid sessionScopedTotals
        (get_num_data_columns sessionScopedTotals)).1,
      r.length = 1 + get_num_data_columns sessionScopedTotals :=
  ⟨by decide, grid_rectangular sessionScopedTotals (by decide)⟩

/-- `CarrierBundle.total_premium` computes the spec-side sum over all
populated slots. -/
theorem total_premium_eq_slot_sum (b : CarrierBundle) :
    b.total_premium = spec_slot_premium_sum b := by
  rcases b with ⟨name, home, home2, auto, umb⟩
  cases home <;> cases home2 <;> cases auto <;> cases umb <;>
    simp [CarrierBundle.total_premium, spec_slot_premium_sum, bundle_slots]

/-- `CurrentPolicy.total_premium` computes the spec-side category sum
(a truthiness-skipped `0.0` premium contributes the same 0). -/
theorem cp_total_premium_eq_category_sum (cp : CurrentPolicy) :
    cp.total_premium = spec_category_premium_sum cp := by
  have hfield : ∀ (o : Option ℚ) (t : ℚ),
      (if truthyQ o then t + o.getD 0 else t) = t + o.getD 0 := by
    intro o t
    cases o with
    | none => simp [truthyQ]
    | some v =>
      by_cases hv : v = 0 <;> simp [truthyQ, hv]
  simp only [CurrentPolicy.total_premium, hfield, spec_category_premium_sum]
  ring

/-- Trimming the padded `_build_total_row` helper row to the data columns
yields exactly the baseline total (when present) followed by one bundle
total per carrier. -/
theorem pad_total_row (s : ComparisonSession) :
    grid_pad_row s.current_policy.isSome (get_num_data_columns s) (build_total_row s) =
      (match s.current_policy with
       | Option.some cp => [Cell.num cp.total_premium]
       | Option.none => [])
      ++ (s.carriers.take 6).map (fun b => Cell.num b.total_premium) := by
  cases hcp : s.current_policy with
  | none =>
    simp [grid_pad_row, build_total_row, padTo7, get_num_data_columns, hcp,
      format_cell_value, numVal]
  | some cp =>
    simp [grid_pad_row, build_total_row, padTo7, get_num_data_columns, hcp,
      format_cell_value, numVal]

/-- The grid row holding the totals, single-dwelling layout (1-based row 7). -/
theorem grid_total_single (s : ComparisonSession) (n : ℕ)
    (h : has_multi_dwelling s = false) :
    (build_full_grid s n).1[6]? =
      some (grid_label_row s.current_policy.isSome n "Total" (build_total_row s)) := by
  simp [build_full_grid, h]

/-- The grid row holding the totals, multi-dwelling layout (1-based row 8). -/
theorem grid_total_multi (s : ComparisonSession) (n : ℕ)
    (h : has_multi_dwelling s = true) :
    (build_full_grid s n).1[7]? =
      some (grid_label_row s.current_policy.isSome n "Total" (build_total_row s)) := by
  simp [build_full_grid, h]

unseal Rat.add Rat.mul Rat.sub Rat.inv Rat.ofScientific in
/-- C2 counterexample.  For the spec's own worked example — a bundle with
home 1500, auto 1200, umbrella 300 under `sections_included = {home, auto}`
— the Total row value in that carrier's column is 3000 (the sum over all
populated slots, umbrella included), not the 2700 the claim requires. -/
theorem total_row_scoping_counterexample :
    sessionScopedTotals.sections_included = ["home", "auto"]
    ∧ bundleAllThree.total_premium = 3000
    ∧ (build_full_grid sessionScopedTotals
        (get_num_data_columns sessionScopedTotals)).1[
        (build_full_grid sessionScopedTotals
          (get_num_data_columns sessionScopedTotals)).2.total_row - 1]? =
      some [Cell.str "Total", Cell.num 3000, Cell.num 1000]
    ∧ (3000 : ℚ) ≠ 2700 := by
  decide

/-- C2 (corrected).  For every session, the Total row of the compiled grid
carries, per carrier column, the sum of the annual premiums of all
populated quote slots of that bundle (home, home-2, auto, umbrella), and in
the baseline column the sum of all stated category premiums — irrespective
of `sections_included`. -/
theorem total_row_sums_all_populated_slots (s : ComparisonSession) :
    ∃ r, (build_full_grid s (get_num_data_columns s)).1[
        (build_full_grid s (get_num_data_columns s)).2.total_row - 1]? = some r
      ∧ r = Cell.str "Total" ::
          ((match s.current_policy with
            | Option.some cp => [Cell.num (spec_category_premium_sum cp)]
            | Option.none => [])
           ++ (s.carriers.take 6).map (fun b => Cell.num (spec_slot_premium_sum b))) := by
  have hrow : grid_label_row s.current_policy.isSome (get_num_data_columns s)
      "Total" (build_total_row s)
      = Cell.str "Total" ::
          ((match s.current_policy with
            | Option.some cp => [Cell.num (spec_category_premium_sum cp)]
            | Option.none => [])
           ++ (s.carriers.take 6).map (fun b => Cell.num (spec_slot_premium_sum b))) := by
    simp only [grid_label_row]
    rw [pad_total_row]
    cases s.current_policy <;>
      simp [total_premium_eq_slot_sum, cp_total_premium_eq_category_sum]
  cases hm : has_multi_dwelling s
  · have h7 := (grid_config_single s (get_num_data_columns s) hm).2.2.2.2.2
    rw [h7]
    exact ⟨_, by simpa using grid_total_single s _ hm, hrow⟩
  · have h8 := (grid_config_multi s (get_num_data_columns s) hm).2.2.2.2.2
    rw [h8]
    exact ⟨_, by simpa using grid_total_multi s _ hm, hrow⟩

/-- C4 (code_bug).  The guard in `generate_comparison_pdf` is
`if not session.carriers or len(session.carriers) > 6`, so a session with
exactly one carrier passes the check even though 1 lies outside [2,6] and
the raised message itself says "Must have 2-6 carriers": 0 and 7 carriers
are rejected, 1 carrier is accepted.  (`SheetsClient.create_comparison`
performs no carrier-count validation at all.) -/
theorem carrier_count_check_accepts_one :
    generate_comparison_pdf_check oneCarrierSession = Except.ok ()
    ∧ oneCarrierSession.carriers.length = 1
    ∧ ¬ 2 ≤ oneCarrierSession.carriers.length
    ∧ generate_comparison_pdf_check zeroCarrierSession
        = Except.error "Must have 2-6 carriers"
    ∧ generate_comparison_pdf_check sevenCarrierSession
        = Except.error "Must have 2-6 carriers" :=
  ⟨rfl, by decide, by decide, rfl, rfl⟩

/-- C9 (code_bug).  `validate_quote` promises ("Never rejects a quote.") to
return the annotated quote and warnings, but its step 4 evaluates
`quote.coverage_limits.items()` on a pydantic `BaseModel`, which has no
`items` attribute: the call raises `AttributeError` for every input instead
of returning.  The embedding therefore yields an error on every quote, in
particular on a perfectly ordinary one. -/
theorem validate_quote_always_raises :
    validate_quote validatorSampleQuote
      = Except.error "AttributeError: 'CoverageLimits' object has no attribute 'items'"
    ∧ ∀ quote : InsuranceQuote,
        validate_quote quote
          = Except.error "AttributeError: 'CoverageLimits' object has no attribute 'items'" :=
  ⟨rfl, fun _ => rfl⟩

unseal Rat.add Rat.mul Rat.sub Rat.inv Rat.ofScientific in
/-- C5 counterexample.  For a session whose `sections_included` is only
`{home}`, the spreadsheet grid still contains the `Umbrella Coverage`
section-header row (1-based row 23) and its `Limits` placeholder label row
with empty data cells (row 24) — the excluded category is not omitted from
that compiled output. -/
theorem excluded_section_rows_counterexample :
    ("umbrella" ∈ sessionHomeOnly.sections_included → False)
    ∧ (build_full_grid sessionHomeOnly (get_num_data_columns sessionHomeOnly)).1[22]? =
        some (Cell.str "Umbrella Coverage" :: List.replicate 2 (Cell.str ""))
    ∧ (build_full_grid sessionHomeOnly (get_num_data_columns sessionHomeOnly)).1[23]? =
        some [Cell.str "Limits", Cell.str "", Cell.str ""] := by
  decide

/-- C5 (corrected).  Omission of excluded sections holds only for the PDF
renderer: the section dividers `add_comparison_table` emits are exactly
`PREMIUM SUMMARY` followed by the divider of each category present in
`sections_included`, in the fixed canonical order home, auto, umbrella —
absent categories contribute no divider (and no rows).  The spreadsheet
grid, by contrast, always contains rows labelled `Home Coverage`,
`Auto Coverage` and `Umbrella Coverage`, whatever `sections_included`
contains. -/
theorem section_emission (s : ComparisonSession) :
    ((add_comparison_table s).filterMap (fun r => match r with
        | PdfRow.divider t => Option.some t
        | _ => Option.none)
      = "PREMIUM SUMMARY" ::
          (["home", "auto", "umbrella"].filter
            (fun c => s.sections_included.contains c)).map
            (fun c => if c == "home" then "HOME DETAILS"
              else if c == "auto" then "AUTO DETAILS" else "UMBRELLA DETAILS"))
    ∧ ∀ n : ℕ, ∀ lbl ∈ ["Home Coverage", "Auto Coverage", "Umbrella Coverage"],
        some (Cell.str lbl) ∈ (build_full_grid s n).1.map (fun r => r.head?) := by
  constructor
  · by_cases h1 : "home" ∈ s.sections_included <;>
      by_cases h2 : "auto" ∈ s.sections_included <;>
        by_cases h3 : "umbrella" ∈ s.sections_included <;>
          cases hm : session_has_multi_dwelling s.current_policy s.carriers <;>
            simp [add_comparison_table, add_premium_section, add_home_section,
              add_auto_section, add_umbrella_section, add_table_header,
              add_total_row, h1, h2, h3, hm, home_rows, auto_rows, umbrella_rows]
  · intro n lbl hl
    cases hm : has_multi_dwelling s
    · rw [grid_heads_single s n hm]
      fin_cases hl <;> decide
    · rw [grid_heads_multi s n hm]
      fin_cases hl <;> decide

/-- Witness for C5 applying the theorem at a concrete session whose
umbrella category is excluded. -/
theorem section_emission_witness :
    "Umbrella Coverage" ∈ ["Home Coverage", "Auto Coverage", "Umbrella Coverage"]
    ∧ some (Cell.str "Umbrella Coverage")
        ∈ (build_full_grid sessionHomeOnly 2).1.map (fun r => r.head?) :=
  ⟨by decide, (section_emission sessionHomeOnly).2 2 "Umbrella Coverage" (by decide)⟩

theorem digitChar_isDigit (n : ℕ) : (digitChar n).isDigit = true := by
  unfold digitChar
  have h : n % 10 < 10 := Nat.mod_lt _ (by norm_num)
  interval_cases h : n % 10 <;> decide

theorem digitChar_ne_dot (n : ℕ) : digitChar n ≠ '.' := by
  intro h
  have hd := digitChar_isDigit n
  rw [h] at hd
  simp [Char.isDigit] at hd

theorem mem_natDigitsAux (fuel : ℕ) : ∀ (m : ℕ) (c : Char), c ∈ natDigitsAux fuel m →
    ∃ k, c = digitChar k := by
  induction fuel with
  | zero => intro m c h; simp [natDigitsAux] at h
  | succ fuel ih =>
    intro m c h
    unfold natDigitsAux at h
    by_cases hm : m < 10
    · simp [hm] at h
      exact ⟨m, h⟩
    · simp [hm] at h
      rcases h with h | h
      · exact ih _ _ h
      · exact ⟨m % 10, h⟩

theorem mem_commaRev (l : List Char) : ∀ (i : ℕ) (c : Char), c ∈ commaRev l i →
    c ∈ l ∨ c = ',' := by
  induction l with
  | nil => intro i c h; simp [commaRev] at h
  | cons x xs ih =>
    intro i c h
    unfold commaRev at h
    rcases List.mem_append.mp h with h | h
    · by_cases hi : i ≠ 0 ∧ i % 3 = 0 <;> simp [hi] at h
      subst h
      exact Or.inr rfl
    · rcases List.mem_cons.mp h with h | h
      · exact Or.inl (by simp [h])
      · rcases ih _ _ h with h | h
        · exact Or.inl (List.mem_cons_of_mem _ h)
        · exact Or.inr h

/-- Every character of a thousands-separated digit string is a decimal
digit or a comma. -/
theorem mem_commaDigits (n : ℕ) (c : Char) (h : c ∈ commaDigits n) :
    (∃ k, c = digitChar k) ∨ c = ',' := by
  unfold commaDigits at h
  rw [List.mem_reverse] at h
  rcases mem_commaRev _ _ _ h with h | h
  · rw [List.mem_reverse] at h
    exact Or.inl (mem_natDigitsAux _ _ _ h)
  · exact Or.inr h

theorem commaDigits_ne_dot (n : ℕ) (c : Char) (h : c ∈ commaDigits n) : c ≠ '.' := by
  rcases mem_commaDigits n c h with ⟨k, rfl⟩ | rfl
  · exact digitChar_ne_dot k
  · decide

theorem roundHalfEven_nonneg (q : ℚ) (h : 0 ≤ q) : 0 ≤ roundHalfEven q := by
  have hfl : (0 : ℤ) ≤ ⌊q⌋ := Int.floor_nonneg.mpr h
  unfold roundHalfEven
  dsimp only
  split
  · exact hfl
  · split
    · omega
    · split <;> omega

/-- The `,.0f` branch: a value of at least 1000 renders with a leading
dollar sign and no decimal point anywhere. -/
theorem fmt_currency_ge1000 (q : ℚ) (h : 1000 ≤ q) :
    (fmt_currency (Option.some q)).data.count '.' = 0
    ∧ (fmt_currency (Option.some q)).data.head? = some '$' := by
  have hq : q ≥ 1000 := h
  have hpos : ¬ roundHalfEven q < 0 := by
    have h0 : (0:ℚ) ≤ q := le_trans (by norm_num) h
    have := roundHalfEven_nonneg q h0
    omega
  constructor
  · rw [fmt_currency, if_pos hq]
    rw [String.data_append]
    rw [fmtComma0]
    simp only [hpos, if_neg, if_false]
    rw [String.data_append, List.count_append, List.count_append]
    have h1 : ("$".data).count '.' = 0 := by decide
    have h2 : ("".data : List Char).count '.' = 0 := by decide
    have h3 : ((String.mk (commaDigits (roundHalfEven q).natAbs)).data).count '.' = 0 := by
      apply List.count_eq_zero.mpr
      intro hmem
      exact commaDigits_ne_dot _ _ hmem rfl
    rw [h1, h2, h3]
  · rw [fmt_currency, if_pos hq, String.data_append]
    rfl

/-- The `,.2f` branch: a nonnegative value below 1000 renders with exactly
one decimal point followed by exactly two digits. -/
theorem fmt_currency_lt1000 (q : ℚ) (h0 : 0 ≤ q) (h : q < 1000) :
    (fmt_currency (Option.some q)).data.count '.' = 1
    ∧ ((fmt_currency (Option.some q)).data.reverse.takeWhile (fun c => c ≠ '.')).length = 2 := by
  have hq : ¬ q ≥ 1000 := not_le.mpr h
  have hneg : ¬ q < 0 := not_lt.mpr h0
  rw [fmt_currency, if_neg hq]
  rw [fmtComma2]
  simp only [hneg, if_false, String.data_append]
  have hA0 : List.count '.' (commaDigits ((roundHalfEven (q * 100)).natAbs / 100)) = 0 :=
    List.count_eq_zero.mpr (fun hc => commaDigits_ne_dot _ _ hc rfl)
  have hd1 : digitChar ((roundHalfEven (q * 100)).natAbs % 100 / 10) ≠ '.' := digitChar_ne_dot _
  have hd2 : digitChar ((roundHalfEven (q * 100)).natAbs % 100) ≠ '.' := digitChar_ne_dot _
  constructor
  · simp [List.count_append, List.count_cons, hA0, hd1.symm, hd2.symm]
  · simp [List.reverse_append, List.takeWhile_cons, hd1, hd2]

unseal Rat.add Rat.mul Rat.sub Rat.inv Rat.ofScientific in
/-- C6 counterexample.  `_fmt_currency` renders 1234.5 as `"$1,234"`
(`float.__format__` resolves the exact tie 1234.5 to the even neighbour
1234), not the `"$1,235"` the claim requires. -/
theorem currency_rounding_counterexample :
    fmt_currency (Option.some 1234.5) = "$1,234" ∧ "$1,234" ≠ "$1,235" := by
  decide

unseal Rat.add Rat.mul Rat.sub Rat.inv Rat.ofScientific in
/-- C6 (corrected).  Plain currency formatting: `None` maps to the
sentinel `"-"` (never `"$0"`); any value `>= 1000` renders as a
dollar-prefixed, thousands-separated string with no decimal point; any
nonnegative value `< 1000` renders with exactly one decimal point followed
by exactly two digits; the tie 1234.5 renders as `"$1,234"` (ties go to the
even digit) and 123.4 renders as `"$123.40"`. -/
theorem currency_formatting :
    fmt_currency Option.none = "-"
    ∧ fmt_currency (Option.some 1234.5) = "$1,234"
    ∧ fmt_currency (Option.some 123.4) = "$123.40"
    ∧ (∀ q : ℚ, 1000 ≤ q →
        (fmt_currency (Option.some q)).data.count '.' = 0
        ∧ (fmt_currency (Option.some q)).data.head? = some '$')
    ∧ (∀ q : ℚ, 0 ≤ q → q < 1000 →
        (fmt_currency (Option.some q)).data.count '.' = 1
        ∧ ((fmt_currency (Option.some q)).data.reverse.takeWhile
            (fun c => c ≠ '.')).length = 2) :=
  ⟨by decide, by decide, by decide, fmt_currency_ge1000, fmt_currency_lt1000⟩

/-- Witness for C6 applying the quantified clauses at 5000 and 12.3. -/
theorem currency_formatting_witness :
    ((1000 : ℚ) ≤ 5000
      ∧ (fmt_currency (Option.some 5000)).data.count '.' = 0)
    ∧ ((0 : ℚ) ≤ 12.3 ∧ (12.3 : ℚ) < 1000
      ∧ ((fmt_currency (Option.some 12.3)).data.reverse.takeWhile
          (fun c => c ≠ '.')).length = 2) :=
  ⟨⟨by norm_num, (currency_formatting.2.2.2.1 5000 (by norm_num)).1⟩,
   ⟨by norm_num, by norm_num,
     (currency_formatting.2.2.2.2 12.3 (by norm_num) (by norm_num)).2⟩⟩

unseal Rat.add Rat.mul Rat.sub Rat.inv Rat.ofScientific in
/-- C7 counterexample.  A quote whose bodily-injury-per-person limit is
present but equal to 0 (with per-accident 500000 and property damage
250000 present, and no CSL) formats as the sentinel `"-"`, not as
`"0/500/250"`: the split-limit branch tests Python truthiness, so a
present-but-zero limit is treated as absent. -/
theorem auto_limits_zero_counterexample :
    zeroBIQuote.coverage_limits.bi_per_person = Option.some 0
    ∧ zeroBIQuote.coverage_limits.bi_per_accident.isSome = true
    ∧ zeroBIQuote.coverage_limits.pd_per_accident.isSome = true
    ∧ zeroBIQuote.coverage_limits.csl = Option.none
    ∧ get_auto_limits zeroBIQuote = "-"
    ∧ "-" ≠ "0/500/250" := by
  decide

unseal Rat.add Rat.mul Rat.sub Rat.inv Rat.ofScientific in
/-- C7 (corrected).  Auto liability limit formatting (identical in
`sheets_client.py` and `generator.py`): when all three split limits are
present *and nonzero*, the result is the three values divided by 1000,
truncated, joined by `/`; otherwise, when a *nonzero* CSL is present it is
`"{csl/1000000}M CSL"` for at least one million and `"{csl/1000}K CSL"`
below; otherwise the sentinel `"-"`.  In particular 500000/500000/250000
gives `"500/500/250"`, CSL 1000000 gives `"1M CSL"`, CSL 500000 gives
`"500K CSL"`. -/
theorem auto_limits_formatting :
    (∀ q : InsuranceQuote,
      (truthyQ q.coverage_limits.bi_per_person = true →
        truthyQ q.coverage_limits.bi_per_accident = true →
        truthyQ q.coverage_limits.pd_per_accident = true →
        get_auto_limits q =
          toString (truncQ (q.coverage_limits.bi_per_person.getD 0 / 1000)) ++ "/"
          ++ toString (truncQ (q.coverage_limits.bi_per_accident.getD 0 / 1000)) ++ "/"
          ++ toString (truncQ (q.coverage_limits.pd_per_accident.getD 0 / 1000)))
      ∧ ((truthyQ q.coverage_limits.bi_per_person && truthyQ q.coverage_limits.bi_per_accident
            && truthyQ q.coverage_limits.pd_per_accident) = false →
        truthyQ q.coverage_limits.csl = true →
        1000000 ≤ q.coverage_limits.csl.getD 0 →
        get_auto_limits q =
          toString (truncQ (q.coverage_limits.csl.getD 0 / 1000000)) ++ "M CSL")
      ∧ ((truthyQ q.coverage_limits.bi_per_person && truthyQ q.coverage_limits.bi_per_accident
            && truthyQ q.coverage_limits.pd_per_accident) = false →
        truthyQ q.coverage_limits.csl = true →
        ¬ 1000000 ≤ q.coverage_limits.csl.getD 0 →
        get_auto_limits q =
          toString (truncQ (q.coverage_limits.csl.getD 0 / 1000)) ++ "K CSL")
      ∧ ((truthyQ q.coverage_limits.bi_per_person && truthyQ q.coverage_limits.bi_per_accident
            && truthyQ q.coverage_limits.pd_per_accident) = false →
        truthyQ q.coverage_limits.csl = false →
        get_auto_limits q = "-"))
    ∧ get_auto_limits splitLimitQuote = "500/500/250"
    ∧ get_auto_limits cslMillionQuote = "1M CSL"
    ∧ get_auto_limits cslHalfMillionQuote = "500K CSL" := by
  refine ⟨fun q => ⟨?_, ?_, ?_, ?_⟩, by decide, by decide, by decide⟩
  · intro h1 h2 h3
    simp [get_auto_limits, h1, h2, h3, instToStringString, String.append_assoc]
  · intro hs hc hge
    simp [get_auto_limits, hs, hc, hge, instToStringString, String.append_assoc]
  · intro hs hc hge
    simp [get_auto_limits, hs, hc, hge, instToStringString, String.append_assoc]
  · intro hs hc
    simp [get_auto_limits, hs, hc]

unseal Rat.add Rat.mul Rat.sub Rat.inv Rat.ofScientific in
/-- Witness for C7 applying the split-limit clause at the concrete
500000/500000/250000 quote. -/
theorem auto_limits_formatting_witness :
    truthyQ splitLimitQuote.coverage_limits.bi_per_person = true
    ∧ get_auto_limits splitLimitQuote =
        toString (truncQ (splitLimitQuote.coverage_limits.bi_per_person.getD 0 / 1000)) ++ "/"
        ++ toString (truncQ (splitLimitQuote.coverage_limits.bi_per_accident.getD 0 / 1000)) ++ "/"
        ++ toString (truncQ (splitLimitQuote.coverage_limits.pd_per_accident.getD 0 / 1000)) :=
  ⟨by decide,
    (auto_limits_formatting.1 splitLimitQuote).1 (by decide) (by decide) (by decide)⟩

/-- Unfolding the accumulator of the `dict.fromkeys` fold: elements already
seen are skipped, new ones are appended. -/
theorem dedup_first_go : ∀ (l acc : List String),
    l.foldl (fun a x => if x ∈ a then a else a ++ [x]) acc =
      acc ++ spec_dedup (l.filter (fun y => !(decide (y ∈ acc)))) := by
  intro l
  induction l with
  | nil => intro acc; simp [spec_dedup]
  | cons x xs ih =>
    intro acc
    by_cases hx : x ∈ acc
    · simp only [List.foldl_cons, if_pos hx]
      rw [ih acc]
      congr 2
      simp [List.filter_cons, hx]
    · simp only [List.foldl_cons, if_neg hx]
      rw [ih (acc ++ [x])]
      have hfil : xs.filter (fun y => !(decide (y ∈ acc ++ [x]))) =
          (xs.filter (fun y => !(decide (y ∈ acc)))).filter (fun y => !(y == x)) := by
        rw [List.filter_filter]
        apply List.filter_congr
        intro y _
        by_cases hy1 : y ∈ acc <;> by_cases hy2 : y = x <;>
          simp [hy1, hy2, List.mem_append]
      rw [List.append_assoc]
      congr 1
      rw [hfil]
      have hcons : (x :: xs).filter (fun y => !(decide (y ∈ acc))) =
          x :: xs.filter (fun y => !(decide (y ∈ acc))) := by
        simp [List.filter_cons, hx]
      rw [hcons, spec_dedup]
      rfl

/-- The code's fold-based de-duplication computes exactly the spec-side
first-occurrence de-duplication. -/
theorem dedup_first_eq_spec (l : List String) : dedup_first l = spec_dedup l := by
  have h := dedup_first_go l []
  simpa [dedup_first] using h

theorem spec_dedup_sublist (l : List String) : List.Sublist (spec_dedup l) l := by
  induction l using spec_dedup.induct with
  | case1 => simp [spec_dedup]
  | case2 x xs ih =>
    rw [spec_dedup]
    exact (ih.trans (List.filter_sublist _)).cons₂ x

theorem spec_dedup_mem (l : List String) (y : String) : y ∈ spec_dedup l ↔ y ∈ l := by
  induction l using spec_dedup.induct with
  | case1 => simp [spec_dedup]
  | case2 x xs ih =>
    rw [spec_dedup]
    by_cases hy : y = x
    · simp [hy]
    · simp only [List.mem_cons, ih, List.mem_filter, hy, false_or]
      simp [hy]

theorem spec_dedup_nodup (l : List String) : (spec_dedup l).Nodup := by
  induction l using spec_dedup.induct with
  | case1 => simp [spec_dedup]
  | case2 x xs ih =>
    rw [spec_dedup]
    refine List.nodup_cons.mpr ⟨?_, ih⟩
    intro hx
    have hmem := (spec_dedup_mem _ _).mp hx
    rw [List.mem_filter] at hmem
    simp at hmem

/-- C8 (confirmed).  Endorsement/discount aggregation: for every bundle,
the aggregated list is the concatenation of the populated slots' lists in
slot order, de-duplicated keeping the first occurrence of each element in
its first-seen position — formally, the fold used by
`add_endorsements_section` equals the first-occurrence de-duplication
`spec_dedup`, and the aggregate is duplicate-free, a subsequence of the
concatenation (so surviving occurrences keep their first-seen positions),
and has exactly the concatenation's elements; on the spec's example slots
`["A", "B"]` and `["B", "C"]` it yields `["A", "B", "C"]`. -/
theorem endorsement_aggregation :
    aggregate_endorsements endorsementBundle = ["A", "B", "C"]
    ∧ (∀ l, dedup_first l = spec_dedup l)
    ∧ (∀ b : CarrierBundle,
        (aggregate_endorsements b).Nodup
        ∧ List.Sublist (aggregate_endorsements b)
            ((((bundle_slots b).filterMap id).map (fun q => q.endorsements)).flatten)
        ∧ (∀ x, x ∈ aggregate_endorsements b ↔
            x ∈ (((bundle_slots b).filterMap id).map (fun q => q.endorsements)).flatten))
    ∧ (∀ b : CarrierBundle,
        (aggregate_discounts b).Nodup
        ∧ List.Sublist (aggregate_discounts b)
            ((((bundle_slots b).filterMap id).map (fun q => q.discounts_applied)).flatten)
        ∧ (∀ x, x ∈ aggregate_discounts b ↔
            x ∈ (((bundle_slots b).filterMap id).map (fun q => q.discounts_applied)).flatten)) := by
  refine ⟨by decide, dedup_first_eq_spec, fun b => ⟨?_, ?_, ?_⟩, fun b => ⟨?_, ?_, ?_⟩⟩
  · rw [aggregate_endorsements, dedup_first_eq_spec]
    exact spec_dedup_nodup _
  · rw [aggregate_endorsements, dedup_first_eq_spec]
    exact spec_dedup_sublist _
  · rw [aggregate_endorsements, dedup_first_eq_spec]
    exact fun x => spec_dedup_mem _ x
  · rw [aggregate_discounts, dedup_first_eq_spec]
    exact spec_dedup_nodup _
  · rw [aggregate_discounts, dedup_first_eq_spec]
    exact spec_dedup_sublist _
  · rw [aggregate_discounts, dedup_first_eq_spec]
    exact fun x => spec_dedup_mem _ x

end QuoteTool
